import Mathlib

/-!
Shallow embedding of `src/blackboard.py` (a blackboard-style song
recommendation engine) and proofs about the claims of its specification.

Modelling conventions:
* Python object identity is modelled by a numeric `oid` field; `list.remove(x)`
  (which removes the first element identical to `x`) becomes `removeFirst` on
  the `oid`.
* Python `float` arithmetic is modelled by `ℚ`; machine integers by `Int`
  (Python 2 ints are unbounded; `sys.maxint` is the 64-bit constant `2^63 - 1`).
* Exceptions (`AttributeError`, `KeyError`, `ZeroDivisionError`, the explicit
  `raise Exception` in `Assertion.resign`) are modelled by `Except String`.
* Network calls (`KnowledgeSource._make_request`) are modelled by an `Oracle`
  of total functions standing for a provider that answers successfully; the
  `ProviderError` paths are outside every claim considered here.
-/

namespace Blackboard

/-- Python raises exceptions; computations that can raise live in this monad. -/
abbrev PyM := Except String

/-- The four knowledge-source objects created by `Controller.__init__`
(`InfoSource`, `SimilarTrackSource`, `PlaycountSource`, `TagSource`).
Each exists exactly once, so the constructor doubles as the object identity. -/
inductive KSId where
  | info
  | similar
  | playcount
  | tagsrc
deriving DecidableEq, Repr

/-- `Recommendation`: one song.  The Python object is populated from provider
JSON via `__dict__.update`; we keep only the fields the program reads
(`artist['name']`, `name`, `playcount`, optional `tags`), plus the
`knowledge_source` provenance link and the object identity `oid`.
Unread provider fields (listeners, duration, url, ...) are omitted. -/
structure Recommendation where
  oid : Nat
  artistName : String
  name : String
  playcount : Int
  tags : Option (List String)
  knowledge_source : KSId
deriving DecidableEq, Repr

/-- `self.id = "%s - %s" % (self.artist['name'], self.name)` -/
def Recommendation.id (r : Recommendation) : String :=
  r.artistName ++ " - " ++ r.name

/-- One entry of `blackboard.affirmations`: an `Assumption`
(`retractable = true`) or an `Assertion` (`retractable = false`, the
subclass overriding `is_retractable`/`resign`).  `recommendation` is an
`Option` because `TagSource.choose` can build an assumption whose
`recommendation` is Python `None`. -/
structure Affirmation where
  oid : Nat
  recommendation : Option Recommendation
  knowledge_source : KSId
  reason : String
  score : Option ℚ
  retractable : Bool
deriving DecidableEq, Repr

/-- Removes the first element satisfying `p` (Python `list.remove`). -/
def removeFirst (p : α → Bool) : List α → List α
  | [] => []
  | x :: xs => if p x then xs else x :: removeFirst p xs

/-- `Assumption.resign` / `Assertion.resign`, dispatched on `is_retractable`:
an `Assumption` removes itself from the affirmations list
(`self.blackboard.affirmations.remove(self)`); an `Assertion` raises. -/
def Affirmation.resign (a : Affirmation) (affirmations : List Affirmation) :
    PyM (List Affirmation) :=
  if a.retractable then
    .ok (removeFirst (fun x => x.oid == a.oid) affirmations)
  else
    .error "Assertions may not be retracted or resigned."

/-- `PlaycountSource._init_strategies`, the `'more'` queue. -/
def init_more : List String := ["more plays", "a lot more plays"]

/-- `PlaycountSource._init_strategies`, the `'fewer'` queue. -/
def init_fewer : List String := ["fewer plays", "a lot fewer plays"]

/-- Mutable state of `PlaycountSource`: the two strategy queues, the current
strategy `try_this`, and the quality modifier `source_quality`. -/
structure PCState where
  strategiesMore : List String
  strategiesFewer : List String
  try_this : Option String
  source_quality : Option String
deriving DecidableEq, Repr

/-- Mutable state of `SimilarTrackSource`: `thinking_about` and `data_feed`. -/
structure SimState where
  thinking_about : Option String
  data_feed : List Recommendation
deriving DecidableEq, Repr

/-- Mutable state of `InfoSource`: `thinking_about` and the cached
`data_feed['track']` of the last `track.getInfo` lookup. -/
structure InfoState where
  thinking_about : Option String
  cached : Option Recommendation
deriving DecidableEq, Repr

/-- The whole mutable state: the blackboard (`pool`, `affirmations`,
`solving`) plus the per-agent state.  `deps` is the heap of
`DependencyMixin._dependents` lists: `(oid, ks) ∈ deps` means `ks` was
appended to the `_dependents` list of the recommendation object `oid`. -/
structure System where
  pool : List Recommendation
  affirmations : List Affirmation
  solving : Option Affirmation
  deps : List (Nat × KSId)
  pc : PCState
  sim : SimState
  info : InfoState
  nextOid : Nat
deriving DecidableEq, Repr

/-- `DependencyMixin.dependents` of the recommendation object `oid`. -/
def System.dependentsOf (sys : System) (oid : Nat) : List KSId :=
  (sys.deps.filter (fun d => d.1 == oid)).map (fun d => d.2)

/-- The external last.fm provider, as a total oracle (the success behaviour of
`_make_request` for the four API methods the program uses). -/
structure Oracle where
  /-- `track.getInfo` for a given artist/track: the full `Recommendation`
  built from `song_info['track']`. -/
  getTrackInfo : String → String → Recommendation
  /-- `artist.getSimilar`: ordered artist names, most-similar first. -/
  getSimilar : String → List String
  /-- `artist.getTopTracks` with `limit = 1`: the single top track record. -/
  getTopTrack : String → Recommendation
  /-- `track.getTopTags`: the raw provider tag-name list (the client
  truncates it to 19 itself). -/
  getTopTags : Recommendation → List String

/-! ## `Blackboard.empty_pool`

`empty_pool` runs `for rec in self.pool: rec.resign()`, where
`Recommendation.resign` removes `rec` from the very list being iterated.
Python list iteration is index-based over the live list, so we embed the
loop exactly: at step `i`, if `i < len(pool)` the element at index `i` is
removed (first occurrence, by identity) and the index advances.  The loop
runs at most `len(pool)` times; the initial length is passed as fuel, which
is enough because every iteration strictly shrinks the list. -/

/-- One-indexed sweep of the `for`/`remove` loop of `empty_pool`. -/
def empty_pool_go : Nat → List Recommendation → Nat → List Recommendation
  | 0, pool, _ => pool
  | fuel + 1, pool, i =>
    if h : i < pool.length then
      empty_pool_go fuel
        (removeFirst (fun r => r.oid == (pool.get ⟨i, h⟩).oid) pool) (i + 1)
    else pool

/-- `Blackboard.empty_pool` (lines 50–52 of the source). -/
def empty_pool (pool : List Recommendation) : List Recommendation :=
  empty_pool_go pool.length pool 0

/-! ## `KnowledgeSource.assure_unique` and `SimilarTrackSource` -/

/-- The list comprehension of `assure_unique`: ids of every affirmation whose
reason is `Initial song` / `Disliked by user` / `Liked by user`, extended
with the ids of the pool.  (Those affirmations are always built with an
actual recommendation, so the `Option` is projected away.) -/
def considered_songs (sys : System) : List String :=
  ((sys.affirmations.filter (fun idea =>
      idea.reason == "Initial song" ||
      idea.reason == "Disliked by user" ||
      idea.reason == "Liked by user")).filterMap
    (fun idea => idea.recommendation.map Recommendation.id))
  ++ sys.pool.map Recommendation.id

/-- The `while True` loop of `assure_unique`.  `song = self.data_feed.pop()`
pops from the *tail* of the feed, so the loop is structural recursion over
the reversed feed (`feedRev`); the caller restores the orientation.  Each
popped song is looked up with `track.getInfo` and skipped if its id is
among the considered songs; `considered_songs` is recomputed per iteration
in the source but reads only state the loop never changes, so it is hoisted.
(The `preserve` parameter is never passed at any call site and the
`if not rec_new` branch is unreachable — an object is always truthy —
so both are omitted.) -/
def assure_unique_pop (oracle : Oracle) (considered : List String) :
    List Recommendation → Option Recommendation × List Recommendation
  | [] => (none, [])
  | song :: restRev =>
    let rec_new := oracle.getTrackInfo song.artistName song.name
    if rec_new.id ∈ considered then assure_unique_pop oracle considered restRev
    else (some rec_new, restRev)

/-- `KnowledgeSource.assure_unique` (lines 144–166): returns the popped
unique recommendation (if any) and the state with the consumed feed. -/
def assure_unique (oracle : Oracle) (sys : System) :
    Option Recommendation × System :=
  let res := assure_unique_pop oracle (considered_songs sys) sys.sim.data_feed.reverse
  (res.1, { sys with sim := { sys.sim with data_feed := res.2.reverse } })

/-- The `while count > 0` loop of `SimilarTrackSource.get_recommendations`:
each round pops a unique recommendation off the feed and, if one was found,
registers it to the pool (`rec_toptrack.register()` appends) and subscribes
this agent (`rec_toptrack.add_dependent(self)`). -/
def gather_loop (oracle : Oracle) (sys : System) : Nat → System
  | 0 => sys
  | count + 1 =>
    let res := assure_unique oracle sys
    let sys :=
      match res.1 with
      | some r =>
        { res.2 with
          pool := res.2.pool ++ [r],
          deps := res.2.deps ++ [(r.oid, KSId.similar)] }
      | none => res.2
    gather_loop oracle sys count

/-- `SimilarTrackSource.get_recommendations` (lines 282–310).  On the first
invocation for `artist` (`thinking_about` differs), it fetches the ranked
similar artists (most-similar first), the single top track of each, reverses
that list and installs it as the feed; then the count-loop consumes the feed.
The `track` parameter is accepted and ignored, as in the source; the
`KeyError`/`ProviderError` paths of the lookup are outside the oracle model. -/
def get_recommendations (oracle : Oracle) (sys : System)
    (artist : String) (_track : String) (count : Nat) : System :=
  let sys :=
    if sys.sim.thinking_about ≠ some artist then
      { sys with
        sim :=
          { thinking_about := some artist,
            data_feed :=
              ((oracle.getSimilar artist).map oracle.getTopTrack).reverse } }
    else sys
  gather_loop oracle sys count

/-! ## `InfoSource` -/

/-- `InfoSource.get_info` (lines 203–216): caches the last `track.getInfo`
lookup under `thinking_about`, wraps it as a `Recommendation`, subscribes
itself, records the permanent `Initial song` assertion and makes it the
`solving` target.  Using the stale cache with a `None` feed would be a
`TypeError` in Python; it is unreachable from the initial state. -/
def get_info (oracle : Oracle) (sys : System) (artist track : String) :
    PyM (Recommendation × System) :=
  let song := artist ++ " - " ++ track
  let sys :=
    if sys.info.thinking_about ≠ some song then
      { sys with
        info :=
          { thinking_about := some song,
            cached := some (oracle.getTrackInfo artist track) } }
    else sys
  match sys.info.cached with
  | none => .error "TypeError: 'NoneType' object is not subscriptable"
  | some infoRec =>
    let sys := { sys with deps := sys.deps ++ [(infoRec.oid, KSId.info)] }
    let affirm : Affirmation :=
      { oid := sys.nextOid, recommendation := some infoRec,
        knowledge_source := KSId.info, reason := "Initial song",
        score := none, retractable := false }
    .ok (infoRec,
      { sys with
        affirmations := sys.affirmations ++ [affirm],
        solving := some affirm,
        nextOid := sys.nextOid + 1 })

/-! ## `TagSource` -/

/-- The inner counting loop of `TagSource.choose`:
`for tag in tags_to_match: if tag in song_tags: tag_match_count += 1`. -/
def tag_match_count (tags_to_match song_tags : List String) : Nat :=
  tags_to_match.countP (fun tag => song_tags.contains tag)

/-- The tail of `TagSource._register_assumption` shared by both branches:
build the `Closest match on tags` assumption, set its score, register it,
then `song['reco'].add_dependent(self)` — which raises `AttributeError`
when the winner is Python `None`.  (The append happens before the raise,
but the exception propagates out of the whole call, so the intermediate
state is unobservable.) -/
def tag_register_new (sys : System) (score : ℚ) (reco : Option Recommendation) :
    PyM System :=
  let affirm : Affirmation :=
    { oid := sys.nextOid, recommendation := reco,
      knowledge_source := KSId.tagsrc, reason := "Closest match on tags",
      score := some score, retractable := true }
  let sys :=
    { sys with affirmations := sys.affirmations ++ [affirm],
               nextOid := sys.nextOid + 1 }
  match reco with
  | none => .error "AttributeError: 'NoneType' object has no attribute 'add_dependent'"
  | some r => .ok { sys with deps := sys.deps ++ [(r.oid, KSId.tagsrc)] }

/-- `TagSource._register_assumption` (lines 237–248): find this agent's first
still-retractable affirmation; if it already targets the winner, keep it
(`return`), else resign it and register a fresh assumption.  Comparing ids
raises `AttributeError` when either recommendation is `None`. -/
def tag_register_assumption (sys : System) (score : ℚ)
    (reco : Option Recommendation) : PyM System :=
  match sys.affirmations.find?
      (fun a => a.knowledge_source == KSId.tagsrc && a.retractable) with
  | some a =>
    match a.recommendation, reco with
    | some ar, some r =>
      if ar.id = r.id then .ok sys
      else
        tag_register_new
          { sys with
            affirmations := removeFirst (fun x => x.oid == a.oid) sys.affirmations }
          score reco
    | _, _ => .error "AttributeError: 'NoneType' object has no attribute 'id'"
  | none => tag_register_new sys score reco

/-- A candidate's tag list as `TagSource.choose` sees it: the cached `tags`
attribute if present, else the `tag_song` lazy fetch truncated to the
19-tag client-side limit.  (Writing the fetched list back onto the
candidate only saves a future network call; the oracle is a function, so
the caching is unobservable and omitted.) -/
def song_tags (oracle : Oracle) (song : Recommendation) : List String :=
  match song.tags with
  | some t => t
  | none => (oracle.getTopTags song).take 19

/-- One iteration of the winner scan of `TagSource.choose` (lines 257–268):
strictly-greater match counts displace the running best. -/
def tag_best_step (oracle : Oracle) (tags_to_match : List String)
    (best : Nat × Option Recommendation) (song : Recommendation) :
    Nat × Option Recommendation :=
  let c := tag_match_count tags_to_match (song_tags oracle song)
  if best.1 < c then (c, some song) else best

/-- `TagSource.choose` (lines 250–272).  Dividing by an empty
`tags_to_match` is Python's `ZeroDivisionError`. -/
def tag_choose (oracle : Oracle) (sys : System) :
    PyM (ℚ × Option Recommendation × System) := do
  let sv ← match sys.solving with
    | some sv => pure sv
    | none => .error "AttributeError: 'NoneType' object has no attribute 'recommendation'"
  let sr ← match sv.recommendation with
    | some sr => pure sr
    | none => .error "AttributeError: 'NoneType' object has no attribute 'tags'"
  let tags_to_match := song_tags oracle sr
  let best := sys.pool.foldl (tag_best_step oracle tags_to_match) (0, none)
  if tags_to_match.length = 0 then
    .error "ZeroDivisionError: float division"
  else
    let score : ℚ := ((best.1 : ℚ) / (tags_to_match.length : ℚ)) * 100
    let sys ← tag_register_assumption sys score best.2
    .ok (score, best.2, sys)

/-- `TagSource.be_notified` (lines 274–278): on any feedback, resign the
first affirmation owned by this agent (the loop has no retractable filter,
so hitting an assertion would raise — this agent only ever owns
assumptions). -/
def tag_be_notified (sys : System) : PyM System :=
  match sys.affirmations.find? (fun a => a.knowledge_source == KSId.tagsrc) with
  | none => .ok sys
  | some a =>
    if a.retractable then
      .ok { sys with
            affirmations := removeFirst (fun x => x.oid == a.oid) sys.affirmations }
    else .error "Assertions may not be retracted or resigned."

/-! ## `PlaycountSource` -/

/-- Python 2 `sys.maxint` on a 64-bit platform. -/
def maxint : Int := 2 ^ 63 - 1

/-- Python `abs` on an int, written so that it evaluates by reduction. -/
def iabs (n : Int) : Int := if n < 0 then -n else n

/-- Python `abs` on a float, written so that it evaluates by reduction. -/
def pyabs (q : ℚ) : ℚ := if q < 0 then -q else q

theorem iabs_eq_abs (n : Int) : iabs n = |n| := by
  simp only [iabs, abs]
  rcases lt_trichotomy n 0 with h | h | h
  · simp [h, max_eq_right (le_of_lt (by linarith : n < -n))]
  · simp [h]
  · rw [if_neg (not_lt.mpr (le_of_lt h)), max_eq_left (by linarith : -n ≤ n)]

theorem pyabs_eq_abs (q : ℚ) : pyabs q = |q| := by
  simp only [pyabs, abs]
  rcases lt_trichotomy q 0 with h | h | h
  · simp [h, max_eq_right (le_of_lt (by linarith : q < -q))]
  · simp [h]
  · rw [if_neg (not_lt.mpr (le_of_lt h)), max_eq_left (by linarith : -q ≤ q)]

/-- One entry of the `position` dict of `PlaycountSource.choose`. -/
structure Bucket where
  delta : Int
  reco : Option Recommendation
  score : ℚ
deriving DecidableEq, Repr

/-- The `position` dict: the five running best candidates. -/
structure Position where
  closest : Bucket
  aLotMore : Bucket
  aLotFewer : Bucket
  more : Bucket
  fewer : Bucket
deriving DecidableEq, Repr

/-- The initial `position` dict (line 344–348). -/
def initPosition : Position :=
  { closest := ⟨maxint, none, 0⟩,
    aLotMore := ⟨-maxint - 1, none, 0⟩,
    aLotFewer := ⟨maxint, none, 0⟩,
    more := ⟨maxint, none, 0⟩,
    fewer := ⟨-maxint - 1, none, 0⟩ }

/-- `delta_playcount` of one pool candidate (line 350). -/
def deltaOf (refPc : Int) (song : Recommendation) : Int :=
  song.playcount - refPc

/-- `diff_playcount` of one pool candidate (line 351):
`abs((float(delta)/float(reference)) * 100)`. -/
def pctOf (refPc : Int) (song : Recommendation) : ℚ :=
  pyabs (((deltaOf refPc song : ℚ) / (refPc : ℚ)) * 100)

/-- Lines 352–364: the closest-playcount block, including the displacement
of the previous closest pick into `more plays` / `fewer plays`. -/
def closest_block (refPc : Int) (song : Recommendation) (pos : Position) : Position :=
  let delta := deltaOf refPc song
  if iabs delta < iabs pos.closest.delta then
    let pos :=
      if pos.closest.delta > delta then { pos with more := pos.closest }
      else if pos.closest.delta < delta then { pos with fewer := pos.closest }
      else pos
    { pos with closest := ⟨delta, some song, 100 - pctOf refPc song⟩ }
  else pos

/-- Lines 365–368: the `a lot more plays` block. -/
def a_lot_more_block (refPc : Int) (song : Recommendation) (pos : Position) : Position :=
  let delta := deltaOf refPc song
  if delta > 0 ∧ delta > pos.aLotMore.delta then
    { pos with aLotMore := ⟨delta, some song, pctOf refPc song⟩ }
  else pos

/-- Lines 369–372: the `a lot fewer plays` block. -/
def a_lot_fewer_block (refPc : Int) (song : Recommendation) (pos : Position) : Position :=
  let delta := deltaOf refPc song
  if delta < 0 ∧ delta < pos.aLotFewer.delta then
    { pos with aLotFewer := ⟨delta, some song, pctOf refPc song⟩ }
  else pos

/-- Lines 373–376: the `more plays` block (note: its score is
`100 - diff_playcount`, like the closest block's). -/
def more_block (refPc : Int) (song : Recommendation) (pos : Position) : Position :=
  let delta := deltaOf refPc song
  if delta > 0 ∧ delta < pos.more.delta ∧ delta > pos.closest.delta then
    { pos with more := ⟨delta, some song, 100 - pctOf refPc song⟩ }
  else pos

/-- Lines 377–380: the `fewer plays` block (score `100 - diff_playcount`). -/
def fewer_block (refPc : Int) (song : Recommendation) (pos : Position) : Position :=
  let delta := deltaOf refPc song
  if delta < 0 ∧ delta > pos.fewer.delta ∧ delta < pos.closest.delta then
    { pos with fewer := ⟨delta, some song, 100 - pctOf refPc song⟩ }
  else pos

/-- One iteration of the `for song in self.blackboard.pool` loop of
`PlaycountSource.choose` (lines 349–380), with the same sequential update
order: the closest-displacement block runs first, so the later `more plays`
/ `fewer plays` conditions compare against the freshly updated closest
delta. -/
def stepSong (refPc : Int) (pos : Position) (song : Recommendation) : Position :=
  fewer_block refPc song
    (more_block refPc song
      (a_lot_fewer_block refPc song
        (a_lot_more_block refPc song
          (closest_block refPc song pos))))

/-- The whole pool scan of `PlaycountSource.choose`. -/
def computePosition (refPc : Int) (pool : List Recommendation) : Position :=
  pool.foldl (stepSong refPc) initPosition

/-- `position[key]` (Python dict lookup; `none` is a `KeyError`). -/
def Position.get (pos : Position) : String → Option Bucket := fun s =>
  if s = "closest playcount" then some pos.closest
  else if s = "a lot more plays" then some pos.aLotMore
  else if s = "a lot fewer plays" then some pos.aLotFewer
  else if s = "more plays" then some pos.more
  else if s = "fewer plays" then some pos.fewer
  else none

/-- The `next_best_idea` pairing dict of `_priority_fallback`. -/
def next_best_idea : String → Option String := fun s =>
  if s = "a lot more plays" then some "more plays"
  else if s = "more plays" then some "a lot more plays"
  else if s = "a lot fewer plays" then some "fewer plays"
  else if s = "fewer plays" then some "a lot fewer plays"
  else none

/-- `PlaycountSource._priority_fallback` (lines 392–409): returns the chosen
bucket and the (possibly updated) `self.try_this`. -/
def priority_fallback (pos : Position) (try_this : String) :
    PyM (Bucket × String) := do
  let best ← match pos.get try_this with
    | some b => pure b
    | none => .error "KeyError"
  if best.reco = none then
    let s' ← match next_best_idea try_this with
      | some s' => pure s'
      | none => .error "KeyError"
    let best' ← match pos.get s' with
      | some b => pure b
      | none => .error "KeyError"
    if best'.reco = none then
      match pos.get "closest playcount" with
      | some b => .ok (b, "closest playcount")
      | none => .error "KeyError"
    else .ok (best', s')
  else .ok (best, try_this)

/-- The shared tail of `PlaycountSource._register_strategy`: build the
`Try %s` assumption (Python renders a `None` strategy as the string
`"None"`), set its score — note `if score:` is *truthiness*, so a `0.0`
score is not stored — register it, and subscribe to the recommendation
(raising `AttributeError` when it is `None`). -/
def pc_register_new (sys : System) (reco : Option Recommendation)
    (score : Option ℚ) : PyM System :=
  let reason := "Try " ++ (match sys.pc.try_this with | some s => s | none => "None")
  let scoreField : Option ℚ :=
    match score with
    | some q => if q = 0 then none else some q
    | none => none
  let affirm : Affirmation :=
    { oid := sys.nextOid, recommendation := reco,
      knowledge_source := KSId.playcount, reason := reason,
      score := scoreField, retractable := true }
  let sys :=
    { sys with affirmations := sys.affirmations ++ [affirm],
               nextOid := sys.nextOid + 1 }
  match reco with
  | none => .error "AttributeError: 'NoneType' object has no attribute 'add_dependent'"
  | some r => .ok { sys with deps := sys.deps ++ [(r.oid, KSId.playcount)] }

/-- `PlaycountSource._register_strategy` (lines 325–337): same
resign-or-reuse bookkeeping as the tag agent. -/
def pc_register_strategy (sys : System) (reco : Option Recommendation)
    (score : Option ℚ) : PyM System :=
  match sys.affirmations.find?
      (fun a => a.knowledge_source == KSId.playcount && a.retractable) with
  | some a =>
    match a.recommendation, reco with
    | some ar, some r =>
      if ar.id = r.id then .ok sys
      else
        pc_register_new
          { sys with
            affirmations := removeFirst (fun x => x.oid == a.oid) sys.affirmations }
          reco score
    | _, _ => .error "AttributeError: 'NoneType' object has no attribute 'id'"
  | none => pc_register_new sys reco score

/-- `PlaycountSource.choose` (lines 339–390): `None` on an empty pool;
otherwise scan the pool into `position`, default the strategy to
`closest playcount`, run the priority fallback, apply the
GOOD ×1.25 / POOR ×0.75 quality modifier, register the pick and return it.
A zero reference playcount would be Python's `ZeroDivisionError`. -/
def pc_choose (sys : System) : PyM (Option Bucket × System) := do
  if sys.pool.length = 0 then
    .ok (none, sys)
  else do
    let sv ← match sys.solving with
      | some sv => pure sv
      | none => .error "AttributeError: 'NoneType' object has no attribute 'recommendation'"
    let sr ← match sv.recommendation with
      | some sr => pure sr
      | none => .error "AttributeError: 'NoneType' object has no attribute 'playcount'"
    if sr.playcount = 0 then .error "ZeroDivisionError: float division"
    else do
      let pos := computePosition sr.playcount sys.pool
      let try0 := match sys.pc.try_this with
        | some s => s
        | none => "closest playcount"
      let fb ← priority_fallback pos try0
      let score1 : ℚ :=
        if sys.pc.source_quality = some "GOOD" then fb.1.score * 1.25
        else if sys.pc.source_quality = some "POOR" then fb.1.score * 0.75
        else fb.1.score
      let best : Bucket := { fb.1 with score := score1 }
      let sys := { sys with pc := { sys.pc with try_this := some fb.2 } }
      let sys ← pc_register_strategy sys best.reco (some best.score)
      .ok (some best, sys)

/-- `PlaycountSource.be_notified` (lines 411–432).  On `yes`: quality GOOD
and fresh queues.  Otherwise: resign this agent's first affirmation, clear
`try_this`, and pop the next strategy from the queue chosen by comparing
*this agent's resigned assumption's* candidate playcount (not the notified
recommendation's!) against the reference; an exhausted queue means quality
POOR and fresh queues with `try_this` left `None`. -/
def pc_be_notified (sys : System) (_rec : Recommendation) (response : String) :
    PyM System :=
  -- `response.lower() == 'yes'`: every call site passes the already-lowercase
  -- literal `'yes'` or `'no'`, so `.lower()` is the identity here.
  if response = "yes" then
    .ok { sys with
          pc := { sys.pc with
                  source_quality := some "GOOD",
                  strategiesMore := init_more, strategiesFewer := init_fewer } }
  else do
    let pa := sys.affirmations.find? (fun a => a.knowledge_source == KSId.playcount)
    let sys ← match pa with
      | none => pure sys
      | some a =>
        if a.retractable then
          pure { sys with
                 affirmations := removeFirst (fun x => x.oid == a.oid) sys.affirmations }
        else .error "Assertions may not be retracted or resigned."
    let sys := { sys with pc := { sys.pc with try_this := none } }
    let goMore ← match pa with
      | none => pure true
      | some a => do
        let ar ← match a.recommendation with
          | some ar => pure ar
          | none => .error "AttributeError: 'NoneType' object has no attribute 'playcount'"
        let sv ← match sys.solving with
          | some sv => pure sv
          | none => .error "AttributeError: 'NoneType' object has no attribute 'recommendation'"
        let sr ← match sv.recommendation with
          | some sr => pure sr
          | none => .error "AttributeError: 'NoneType' object has no attribute 'playcount'"
        pure (decide (ar.playcount < sr.playcount))
    let sys :=
      if goMore then
        if sys.pc.strategiesMore.length > 0 then
          { sys with
            pc := { sys.pc with
                    try_this := sys.pc.strategiesMore.getLast?,
                    strategiesMore := sys.pc.strategiesMore.dropLast } }
        else sys
      else
        if sys.pc.strategiesFewer.length > 0 then
          { sys with
            pc := { sys.pc with
                    try_this := sys.pc.strategiesFewer.getLast?,
                    strategiesFewer := sys.pc.strategiesFewer.dropLast } }
        else sys
    if sys.pc.try_this = none then
      .ok { sys with
            pc := { sys.pc with
                    source_quality := some "POOR",
                    strategiesMore := init_more, strategiesFewer := init_fewer } }
    else .ok sys

/-! ## The notification protocol and the controller -/

/-- `KnowledgeSource.be_notified` (lines 168–183), the base-class handler
inherited by `SimilarTrackSource` (`selfKs`).  On `yes`: record a permanent
`Liked by user` assertion and make it the solving target.  Otherwise:
record a permanent `Disliked by user` assertion and, if the notified
recommendation came from this agent, refill the pool from the current
solving track (with the default `count = 1`). -/
def ks_be_notified (oracle : Oracle) (selfKs : KSId) (sys : System)
    (rec : Recommendation) (response : String) : PyM System :=
  -- `response.lower() == 'yes'`: every call site passes the already-lowercase
  -- literal `'yes'` or `'no'`, so `.lower()` is the identity here.
  if response = "yes" then
    let affirm : Affirmation :=
      { oid := sys.nextOid, recommendation := some rec,
        knowledge_source := selfKs, reason := "Liked by user",
        score := none, retractable := false }
    .ok { sys with
          affirmations := sys.affirmations ++ [affirm],
          solving := some affirm,
          nextOid := sys.nextOid + 1 }
  else
    let affirm : Affirmation :=
      { oid := sys.nextOid, recommendation := some rec,
        knowledge_source := selfKs, reason := "Disliked by user",
        score := none, retractable := false }
    let sys :=
      { sys with
        affirmations := sys.affirmations ++ [affirm],
        nextOid := sys.nextOid + 1 }
    if rec.knowledge_source = selfKs then
      match sys.solving with
      | none => .error "AttributeError: 'NoneType' object has no attribute 'recommendation'"
      | some sv =>
        match sv.recommendation with
        | none => .error "AttributeError: 'NoneType' object has no attribute 'artist'"
        | some sr => .ok (get_recommendations oracle sys sr.artistName sr.name 1)
    else .ok sys

/-- Dynamic dispatch of `be_notified` over the four knowledge-source
classes (`InfoSource.be_notified` is a pass). -/
def stepNotifyOne (oracle : Oracle) (sys : System) (rec : Recommendation)
    (response : String) : KSId → PyM System
  | KSId.info => .ok sys
  | KSId.similar => ks_be_notified oracle KSId.similar sys rec response
  | KSId.playcount => pc_be_notified sys rec response
  | KSId.tagsrc => tag_be_notified sys

/-- The subscriber fan-out of `DependencyMixin.notify`: deliver to each
dependent in subscription order (no handler on the modelled paths mutates
the notified recommendation's own dependents list, so iterating the list
read upfront matches Python's live-list iteration). -/
def notify_go (oracle : Oracle) (rec : Recommendation) (response : String) :
    List KSId → System → PyM System
  | [], sys => .ok sys
  | ks :: rest, sys =>
    match stepNotifyOne oracle sys rec response ks with
    | .error e => .error e
    | .ok sys => notify_go oracle rec response rest sys

/-- `Recommendation.notify` / `DependencyMixin.notify` (lines 37–40). -/
def notify (oracle : Oracle) (sys : System) (rec : Recommendation)
    (response : String) : PyM System :=
  notify_go oracle rec response (sys.dependentsOf rec.oid) sys

/-- `Controller.like` (lines 480–487): broadcast the acceptance, empty the
pool, and re-gather four candidates around the accepted track. -/
def like (oracle : Oracle) (sys : System) (rec : Recommendation) : PyM System := do
  let sys ← notify oracle sys rec "yes"
  let sys := { sys with pool := empty_pool sys.pool }
  .ok (get_recommendations oracle sys rec.artistName rec.name 4)

/-- `Controller.dislike` (lines 489–491): evict the candidate
(`list.remove` raises `ValueError` if it is not pooled) and broadcast the
rejection. -/
def dislike (oracle : Oracle) (sys : System) (rec : Recommendation) : PyM System :=
  if sys.pool.any (fun r => r.oid == rec.oid) then
    notify oracle
      { sys with pool := removeFirst (fun r => r.oid == rec.oid) sys.pool }
      rec "no"
  else .error "ValueError: list.remove(x): x not in list"

/-- `Controller.recommend` (lines 493–506): `None` on an empty pool, else
ask the playcount agent and then the tag agent, and pick the pick with the
higher score (ties favour the playcount agent).  The tag agent always
returns a dict, so its result is always `some` here, as in the source. -/
def recommend (oracle : Oracle) (sys : System) :
    PyM (Option Recommendation × System) := do
  if sys.pool.length = 0 then
    .ok (none, sys)
  else do
    let pcRes ← pc_choose sys
    let tagRes ← tag_choose oracle pcRes.2
    let sys := tagRes.2.2
    match pcRes.1 with
    | some p =>
      if p.score ≥ tagRes.1 then .ok (p.reco, sys) else .ok (tagRes.2.1, sys)
    | none => .ok (tagRes.2.1, sys)

/-- The state right after `Controller.__init__`. -/
def initSystem : System :=
  { pool := [], affirmations := [], solving := none, deps := [],
    pc := { strategiesMore := init_more, strategiesFewer := init_fewer,
            try_this := none, source_quality := none },
    sim := { thinking_about := none, data_feed := [] },
    info := { thinking_about := none, cached := none },
    nextOid := 0 }

/-- One state transition of the running program: any of the operations the
controller performs (`get_info`, `get_recommendations`, `recommend`,
`like`, `dislike`), restricted to the runs that do not raise. -/
inductive Step (oracle : Oracle) : System → System → Prop
  | get_info (artist track : String) (r : Recommendation) (sys sys' : System) :
      get_info oracle sys artist track = .ok (r, sys') → Step oracle sys sys'
  | gather (artist track : String) (count : Nat) (sys : System) :
      Step oracle sys (get_recommendations oracle sys artist track count)
  | recommend (r : Option Recommendation) (sys sys' : System) :
      recommend oracle sys = .ok (r, sys') → Step oracle sys sys'
  | like (rec : Recommendation) (sys sys' : System) :
      like oracle sys rec = .ok sys' → Step oracle sys sys'
  | dislike (rec : Recommendation) (sys sys' : System) :
      dislike oracle sys rec = .ok sys' → Step oracle sys sys'

/-- States reachable from `Controller.__init__` by controller operations. -/
inductive Reachable (oracle : Oracle) : System → Prop
  | init : Reachable oracle initSystem
  | step {sys sys' : System} :
      Reachable oracle sys → Step oracle sys sys' → Reachable oracle sys'

/-! ## Basic lemmas about `removeFirst` -/

theorem removeFirst_sublist (p : α → Bool) (l : List α) :
    List.Sublist (removeFirst p l) l := by
  induction l with
  | nil => exact List.Sublist.refl _
  | cons x xs ih =>
    simp only [removeFirst]
    split
    · exact List.Sublist.cons _ (List.Sublist.refl _)
    · exact List.Sublist.cons₂ _ ih

theorem removeFirst_subset (p : α → Bool) (l : List α) {b : α}
    (hb : b ∈ removeFirst p l) : b ∈ l :=
  (removeFirst_sublist p l).subset hb

theorem removeFirst_length {p : α → Bool} {l : List α}
    (h : ∃ x ∈ l, p x) : (removeFirst p l).length + 1 = l.length := by
  induction l with
  | nil => simp at h
  | cons x xs ih =>
    simp only [removeFirst]
    split
    · simp
    · rename_i hpx
      obtain ⟨y, hy, hpy⟩ := h
      rcases List.mem_cons.mp hy with rfl | hy'
      · exact absurd hpy (by simpa using hpx)
      · simpa using ih ⟨y, hy', hpy⟩

theorem mem_removeFirst_of_not {p : α → Bool} {l : List α} {b : α}
    (hb : b ∈ l) (hpb : p b = false) : b ∈ removeFirst p l := by
  induction l with
  | nil => simp at hb
  | cons x xs ih =>
    simp only [removeFirst]
    rcases List.mem_cons.mp hb with rfl | hb'
    · simp [hpb]
    · split
      · exact hb'
      · exact List.mem_cons_of_mem _ (ih hb')

/-- With duplicate-free `oid`s, removing an affirmation by its `oid` really
removes that object. -/
theorem self_not_mem_removeFirst {a : Affirmation} {l : List Affirmation}
    (hnd : (l.map Affirmation.oid).Nodup) (_ha : a ∈ l) :
    a ∉ removeFirst (fun x => x.oid == a.oid) l := by
  induction l with
  | nil => simp [removeFirst]
  | cons x xs ih =>
    simp only [List.map_cons, List.nodup_cons] at hnd
    simp only [removeFirst]
    split
    · rename_i hpx
      intro hmem
      have hx : x.oid = a.oid := by simpa using hpx
      exact hnd.1 (hx ▸ (List.mem_map_of_mem Affirmation.oid hmem))
    · rename_i hpx
      intro hmem
      rcases List.mem_cons.mp hmem with rfl | hmem'
      · exact hpx (by simp)
      · exact ih hnd.2 (removeFirst_subset _ _ hmem') hmem'

/-! ## Claim C2: retraction -/

/-- **C2.** Retracting a permanent hypothesis (`Assertion.resign`) always
fails with the invariant-violation error and cannot touch the log, while
retracting a retractable hypothesis (`Assumption.resign`) succeeds and
removes exactly that one entry: the log shrinks by one, the entry is gone,
every other entry survives, and nothing new appears. -/
theorem C2_retract_assertion_fails_assumption_removes_exactly_one
    (a : Affirmation) (affs : List Affirmation) :
    (a.retractable = false →
      a.resign affs = .error "Assertions may not be retracted or resigned.") ∧
    (a.retractable = true → a ∈ affs → (affs.map Affirmation.oid).Nodup →
      ∃ affs', a.resign affs = .ok affs' ∧
        affs'.length + 1 = affs.length ∧
        a ∉ affs' ∧
        (∀ b ∈ affs, b ≠ a → b ∈ affs') ∧
        (∀ b ∈ affs', b ∈ affs)) := by
  constructor
  · intro hr
    simp [Affirmation.resign, hr]
  · intro hr ha hnd
    refine ⟨removeFirst (fun x => x.oid == a.oid) affs, ?_, ?_, ?_, ?_, ?_⟩
    · simp [Affirmation.resign, hr]
    · exact removeFirst_length ⟨a, ha, by simp⟩
    · exact self_not_mem_removeFirst hnd ha
    · intro b hb hba
      refine mem_removeFirst_of_not hb ?_
      by_contra hcon
      have : b.oid = a.oid := by
        simpa using (Bool.not_eq_false _).mp hcon
      exact hba (List.inj_on_of_nodup_map hnd hb ha this)
    · intro b hb
      exact removeFirst_subset _ _ hb

/-- A permanent and a retractable hypothesis used as witness data. -/
def wAssm : Affirmation :=
  ⟨0, none, KSId.tagsrc, "Closest match on tags", none, true⟩

/-- A permanent hypothesis used as witness data. -/
def wAsrt : Affirmation :=
  ⟨1, none, KSId.info, "Initial song", none, false⟩

/-- Witness for C2 at a concrete two-entry log. -/
theorem C2_retract_witness :
    (wAsrt.resign [wAssm, wAsrt] =
      .error "Assertions may not be retracted or resigned.") ∧
    (∃ affs', wAssm.resign [wAssm, wAsrt] = .ok affs' ∧
      affs'.length + 1 = 2 ∧
      wAssm ∉ affs' ∧
      (∀ b ∈ [wAssm, wAsrt], b ≠ wAssm → b ∈ affs') ∧
      (∀ b ∈ affs', b ∈ [wAssm, wAsrt])) :=
  ⟨(C2_retract_assertion_fails_assumption_removes_exactly_one wAsrt [wAssm, wAsrt]).1 rfl,
   (C2_retract_assertion_fails_assumption_removes_exactly_one wAssm [wAssm, wAsrt]).2
     rfl (by simp) (by simp [wAssm, wAsrt])⟩

/-! ## Claim C8: the strategy fallback chain -/

/-- **C8.** In `_priority_fallback`: when the current strategy's bucket holds
no candidate, the paired strategy's bucket is used (and becomes the
strategy); when the paired bucket is also empty, the strategy is reset to
`closest playcount` and the closest bucket is returned.  The pairing is
`a lot more plays ↔ more plays` and `a lot fewer plays ↔ fewer plays`. -/
theorem C8_priority_fallback_chain
    (pos : Position) (s s' : String) (b b' : Bucket)
    (hpair : next_best_idea s = some s')
    (hb : pos.get s = some b) (hbe : b.reco = none)
    (hb' : pos.get s' = some b') :
    (b'.reco = none →
      priority_fallback pos s = .ok (pos.closest, "closest playcount")) ∧
    (∀ r, b'.reco = some r → priority_fallback pos s = .ok (b', s')) ∧
    next_best_idea "a lot more plays" = some "more plays" ∧
    next_best_idea "more plays" = some "a lot more plays" ∧
    next_best_idea "a lot fewer plays" = some "fewer plays" ∧
    next_best_idea "fewer plays" = some "a lot fewer plays" := by
  have hclosest : pos.get "closest playcount" = some pos.closest := rfl
  refine ⟨?_, ?_, rfl, rfl, rfl, rfl⟩
  · intro hr'
    simp [priority_fallback, hb, hbe, hpair, hb', hr', hclosest]
  · intro r hr'
    simp [priority_fallback, hb, hbe, hpair, hb', hr']

/-- A position whose `a lot more plays` bucket is empty but whose
`more plays` bucket holds a candidate. -/
def wPos1 : Position :=
  { closest := ⟨-10, some ⟨11, "B1", "S1", 90, none, KSId.similar⟩, 90⟩,
    aLotMore := ⟨-maxint - 1, none, 0⟩,
    aLotFewer := ⟨maxint, none, 0⟩,
    more := ⟨20, some ⟨14, "B4", "S4", 120, none, KSId.similar⟩, 80⟩,
    fewer := ⟨-maxint - 1, none, 0⟩ }

/-- A position whose `a lot more plays` and `more plays` buckets are both
empty. -/
def wPos2 : Position :=
  { closest := ⟨-10, some ⟨11, "B1", "S1", 90, none, KSId.similar⟩, 90⟩,
    aLotMore := ⟨-maxint - 1, none, 0⟩,
    aLotFewer := ⟨-10, some ⟨11, "B1", "S1", 90, none, KSId.similar⟩, 10⟩,
    more := ⟨maxint, none, 0⟩,
    fewer := ⟨-maxint - 1, none, 0⟩ }

/-- Witness for C8: one fallback to the paired bucket, one full reset to
closest. -/
theorem C8_priority_fallback_witness :
    priority_fallback wPos1 "a lot more plays" =
      .ok (⟨20, some ⟨14, "B4", "S4", 120, none, KSId.similar⟩, 80⟩, "more plays") ∧
    priority_fallback wPos2 "a lot more plays" =
      .ok (wPos2.closest, "closest playcount") :=
  ⟨(C8_priority_fallback_chain wPos1 "a lot more plays" "more plays"
      wPos1.aLotMore wPos1.more rfl rfl rfl rfl).2.1 _ rfl,
   (C8_priority_fallback_chain wPos2 "a lot more plays" "more plays"
      wPos2.aLotMore wPos2.more rfl rfl rfl rfl).1 rfl⟩

/-! ## Claim C10: the direction queues pop from the tail -/

/-- The seed/reference track for the playcount feedback scenarios. -/
def rRef : Recommendation := ⟨20, "R", "Seed", 100, none, KSId.info⟩

/-- The solving assertion for the playcount feedback scenarios. -/
def solvingAff : Affirmation :=
  ⟨100, some rRef, KSId.info, "Initial song", none, false⟩

/-- A rejected candidate (its playcount is irrelevant to the code path). -/
def rX : Recommendation := ⟨22, "X", "X", 10, none, KSId.similar⟩

/-- Builds the playcount-feedback scenario: the agent holds one assumption on
a candidate with playcount `apc`, and its queues/strategy are as given. -/
def pcScenario (apc : Int) (qm qf : List String) : System :=
  { pool := [], affirmations := [⟨101, some ⟨21, "Y", "Y", apc, none, KSId.similar⟩,
      KSId.playcount, "Try closest playcount", none, true⟩],
    solving := some solvingAff, deps := [],
    pc := { strategiesMore := qm, strategiesFewer := qf,
            try_this := some "closest playcount", source_quality := none },
    sim := { thinking_about := none, data_feed := [] },
    info := { thinking_about := none, cached := none },
    nextOid := 200 }

/-- **C10.** The strategy queues are consumed from the tail: from the initial
contents, the first rejection routed to the `more` (resp. `fewer`) direction
yields strategy `a lot more plays` (resp. `a lot fewer plays`) leaving
`["more plays"]` (resp. `["fewer plays"]`), and the second rejection routed
to the same direction yields `more plays` (resp. `fewer plays`) leaving the
queue empty. -/
theorem C10_direction_queues_pop_from_tail :
    ((pc_be_notified (pcScenario 50 init_more init_fewer) rX "no").toOption.map
        (fun s => (s.pc.try_this, s.pc.strategiesMore)) =
      some (some "a lot more plays", ["more plays"])) ∧
    ((pc_be_notified (pcScenario 50 ["more plays"] init_fewer) rX "no").toOption.map
        (fun s => (s.pc.try_this, s.pc.strategiesMore)) =
      some (some "more plays", [])) ∧
    ((pc_be_notified (pcScenario 150 init_more init_fewer) rX "no").toOption.map
        (fun s => (s.pc.try_this, s.pc.strategiesFewer)) =
      some (some "a lot fewer plays", ["fewer plays"])) ∧
    ((pc_be_notified (pcScenario 150 init_more ["fewer plays"]) rX "no").toOption.map
        (fun s => (s.pc.try_this, s.pc.strategiesFewer)) =
      some (some "fewer plays", [])) :=
  ⟨rfl, rfl, rfl, rfl⟩

/-! ## Claim C5: rejected feedback at the playcount agent -/

/-- **C5, counterexample.**  The claim says the direction is chosen by the
*rejected candidate's* playcount.  Here the rejected candidate `rX` has
playcount 10, below the reference's 100, so the claim predicts a pop from
the `more` queue; but the agent's own current assumption references a
candidate with playcount 150, so the code pops from the `fewer` queue and
leaves the `more` queue untouched. -/
theorem C5_counterexample_direction_uses_own_assumption :
    rX.playcount < rRef.playcount ∧
    ((pc_be_notified (pcScenario 150 init_more init_fewer) rX "no").toOption.map
        (fun s => (s.pc.try_this, s.pc.strategiesMore, s.pc.strategiesFewer)) =
      some (some "a lot fewer plays", init_more, ["fewer plays"])) ∧
    (some "a lot fewer plays" : Option String) ≠ some "a lot more plays" ∧
    init_more ≠ init_more.dropLast :=
  ⟨by decide, rfl, by decide, by decide⟩

/-- Unfolding of `pc_be_notified` on a rejection: assumption present,
its candidate below the reference, `more` queue non-empty. -/
theorem pc_notified_no_pop_more
    (sys : System) (rec : Recommendation) (a : Affirmation)
    (ar sr : Recommendation) (sv : Affirmation)
    (hfind : sys.affirmations.find? (fun x => x.knowledge_source == KSId.playcount) = some a)
    (hret : a.retractable = true) (harec : a.recommendation = some ar)
    (hsolv : sys.solving = some sv) (hsrec : sv.recommendation = some sr)
    (hlt : ar.playcount < sr.playcount)
    (hne : sys.pc.strategiesMore ≠ []) :
    pc_be_notified sys rec "no" = .ok
      { sys with
        affirmations := removeFirst (fun x => x.oid == a.oid) sys.affirmations,
        pc := { strategiesMore := sys.pc.strategiesMore.dropLast,
                strategiesFewer := sys.pc.strategiesFewer,
                try_this := sys.pc.strategiesMore.getLast?,
                source_quality := sys.pc.source_quality } } := by
  have hlen : 0 < sys.pc.strategiesMore.length := List.length_pos.mpr hne
  have hns : sys.pc.strategiesMore.getLast? ≠ none := by
    simpa [List.getLast?_eq_none_iff] using hne
  simp [pc_be_notified, hfind, hret, harec, hsolv, hsrec, hlt, hlen, hns]

/-- Unfolding of `pc_be_notified` on a rejection: assumption present,
its candidate below the reference, `more` queue exhausted. -/
theorem pc_notified_no_more_exhausted
    (sys : System) (rec : Recommendation) (a : Affirmation)
    (ar sr : Recommendation) (sv : Affirmation)
    (hfind : sys.affirmations.find? (fun x => x.knowledge_source == KSId.playcount) = some a)
    (hret : a.retractable = true) (harec : a.recommendation = some ar)
    (hsolv : sys.solving = some sv) (hsrec : sv.recommendation = some sr)
    (hlt : ar.playcount < sr.playcount)
    (hqm : sys.pc.strategiesMore = []) :
    pc_be_notified sys rec "no" = .ok
      { sys with
        affirmations := removeFirst (fun x => x.oid == a.oid) sys.affirmations,
        pc := { strategiesMore := init_more, strategiesFewer := init_fewer,
                try_this := none, source_quality := some "POOR" } } := by
  simp [pc_be_notified, hfind, hret, harec, hsolv, hsrec, hlt, hqm]

/-- Unfolding of `pc_be_notified` on a rejection: assumption present,
its candidate not below the reference, `fewer` queue non-empty. -/
theorem pc_notified_no_pop_fewer
    (sys : System) (rec : Recommendation) (a : Affirmation)
    (ar sr : Recommendation) (sv : Affirmation)
    (hfind : sys.affirmations.find? (fun x => x.knowledge_source == KSId.playcount) = some a)
    (hret : a.retractable = true) (harec : a.recommendation = some ar)
    (hsolv : sys.solving = some sv) (hsrec : sv.recommendation = some sr)
    (hlt : ¬ ar.playcount < sr.playcount)
    (hne : sys.pc.strategiesFewer ≠ []) :
    pc_be_notified sys rec "no" = .ok
      { sys with
        affirmations := removeFirst (fun x => x.oid == a.oid) sys.affirmations,
        pc := { strategiesMore := sys.pc.strategiesMore,
                strategiesFewer := sys.pc.strategiesFewer.dropLast,
                try_this := sys.pc.strategiesFewer.getLast?,
                source_quality := sys.pc.source_quality } } := by
  have hlen : 0 < sys.pc.strategiesFewer.length := List.length_pos.mpr hne
  have hns : sys.pc.strategiesFewer.getLast? ≠ none := by
    simpa [List.getLast?_eq_none_iff] using hne
  simp [pc_be_notified, hfind, hret, harec, hsolv, hsrec, hlt, hlen, hns]

/-- Unfolding of `pc_be_notified` on a rejection: assumption present,
its candidate not below the reference, `fewer` queue exhausted. -/
theorem pc_notified_no_fewer_exhausted
    (sys : System) (rec : Recommendation) (a : Affirmation)
    (ar sr : Recommendation) (sv : Affirmation)
    (hfind : sys.affirmations.find? (fun x => x.knowledge_source == KSId.playcount) = some a)
    (hret : a.retractable = true) (harec : a.recommendation = some ar)
    (hsolv : sys.solving = some sv) (hsrec : sv.recommendation = some sr)
    (hlt : ¬ ar.playcount < sr.playcount)
    (hqf : sys.pc.strategiesFewer = []) :
    pc_be_notified sys rec "no" = .ok
      { sys with
        affirmations := removeFirst (fun x => x.oid == a.oid) sys.affirmations,
        pc := { strategiesMore := init_more, strategiesFewer := init_fewer,
                try_this := none, source_quality := some "POOR" } } := by
  simp [pc_be_notified, hfind, hret, harec, hsolv, hsrec, hlt, hqf]

/-- Unfolding of `pc_be_notified` on a rejection with no logged assumption:
the `more` queue is used unconditionally. -/
theorem pc_notified_no_assumption_pop
    (sys : System) (rec : Recommendation)
    (hfind : sys.affirmations.find? (fun x => x.knowledge_source == KSId.playcount) = none)
    (hne : sys.pc.strategiesMore ≠ []) :
    pc_be_notified sys rec "no" = .ok
      { sys with
        pc := { strategiesMore := sys.pc.strategiesMore.dropLast,
                strategiesFewer := sys.pc.strategiesFewer,
                try_this := sys.pc.strategiesMore.getLast?,
                source_quality := sys.pc.source_quality } } := by
  have hlen : 0 < sys.pc.strategiesMore.length := List.length_pos.mpr hne
  have hns : sys.pc.strategiesMore.getLast? ≠ none := by
    simpa [List.getLast?_eq_none_iff] using hne
  simp [pc_be_notified, hfind, hlen, hns]

/-- Unfolding of `pc_be_notified` on a rejection with no logged assumption
and an exhausted `more` queue. -/
theorem pc_notified_no_assumption_exhausted
    (sys : System) (rec : Recommendation)
    (hfind : sys.affirmations.find? (fun x => x.knowledge_source == KSId.playcount) = none)
    (hqm : sys.pc.strategiesMore = []) :
    pc_be_notified sys rec "no" = .ok
      { sys with
        pc := { strategiesMore := init_more, strategiesFewer := init_fewer,
                try_this := none, source_quality := some "POOR" } } := by
  simp [pc_be_notified, hfind, hqm]

/-- **C5, amended.**  On a rejected-feedback delivery the playcount agent
resigns its first logged affirmation, clears `try_this`, and pops from the
queue selected by comparing *its own resigned assumption's* candidate
playcount with the reference playcount (the notified recommendation `rec`
is ignored by this branch; with no logged assumption the `more` queue is
used).  A pop from a non-empty queue takes the tail element; if the
selected queue is empty the quality drops to POOR, both queues are reset,
and the strategy stays `None` (so the next `choose()` falls back to
`closest playcount`). -/
theorem C5_amended_rejected_feedback_state_machine :
    (∀ (sys : System) (rec : Recommendation) (a : Affirmation)
        (ar sr : Recommendation) (sv : Affirmation),
      sys.affirmations.find? (fun x => x.knowledge_source == KSId.playcount) = some a →
      a.retractable = true → a.recommendation = some ar →
      sys.solving = some sv → sv.recommendation = some sr →
      ∃ sys', pc_be_notified sys rec "no" = .ok sys' ∧
        sys'.affirmations = removeFirst (fun x => x.oid == a.oid) sys.affirmations ∧
        sys'.pool = sys.pool ∧
        (ar.playcount < sr.playcount →
          (sys.pc.strategiesMore ≠ [] →
            sys'.pc.try_this = sys.pc.strategiesMore.getLast? ∧
            sys'.pc.strategiesMore = sys.pc.strategiesMore.dropLast ∧
            sys'.pc.strategiesFewer = sys.pc.strategiesFewer ∧
            sys'.pc.source_quality = sys.pc.source_quality) ∧
          (sys.pc.strategiesMore = [] →
            sys'.pc.try_this = none ∧
            sys'.pc.source_quality = some "POOR" ∧
            sys'.pc.strategiesMore = init_more ∧
            sys'.pc.strategiesFewer = init_fewer)) ∧
        (¬ ar.playcount < sr.playcount →
          (sys.pc.strategiesFewer ≠ [] →
            sys'.pc.try_this = sys.pc.strategiesFewer.getLast? ∧
            sys'.pc.strategiesFewer = sys.pc.strategiesFewer.dropLast ∧
            sys'.pc.strategiesMore = sys.pc.strategiesMore ∧
            sys'.pc.source_quality = sys.pc.source_quality) ∧
          (sys.pc.strategiesFewer = [] →
            sys'.pc.try_this = none ∧
            sys'.pc.source_quality = some "POOR" ∧
            sys'.pc.strategiesMore = init_more ∧
            sys'.pc.strategiesFewer = init_fewer))) ∧
    (∀ (sys : System) (rec : Recommendation),
      sys.affirmations.find? (fun x => x.knowledge_source == KSId.playcount) = none →
      ∃ sys', pc_be_notified sys rec "no" = .ok sys' ∧
        sys'.affirmations = sys.affirmations ∧
        sys'.pool = sys.pool ∧
        (sys.pc.strategiesMore ≠ [] →
          sys'.pc.try_this = sys.pc.strategiesMore.getLast? ∧
          sys'.pc.strategiesMore = sys.pc.strategiesMore.dropLast ∧
          sys'.pc.strategiesFewer = sys.pc.strategiesFewer) ∧
        (sys.pc.strategiesMore = [] →
          sys'.pc.try_this = none ∧ sys'.pc.source_quality = some "POOR" ∧
          sys'.pc.strategiesMore = init_more ∧
          sys'.pc.strategiesFewer = init_fewer)) := by
  constructor
  · intro sys rec a ar sr sv hfind hret harec hsolv hsrec
    by_cases hlt : ar.playcount < sr.playcount
    · by_cases hqm : sys.pc.strategiesMore = []
      · exact ⟨_, pc_notified_no_more_exhausted sys rec a ar sr sv
            hfind hret harec hsolv hsrec hlt hqm,
          rfl, rfl,
          fun _ => ⟨fun hne => absurd hqm hne, fun _ => ⟨rfl, rfl, rfl, rfl⟩⟩,
          fun hn => absurd hlt hn⟩
      · exact ⟨_, pc_notified_no_pop_more sys rec a ar sr sv
            hfind hret harec hsolv hsrec hlt hqm,
          rfl, rfl,
          fun _ => ⟨fun _ => ⟨rfl, rfl, rfl, rfl⟩, fun he => absurd he hqm⟩,
          fun hn => absurd hlt hn⟩
    · by_cases hqf : sys.pc.strategiesFewer = []
      · exact ⟨_, pc_notified_no_fewer_exhausted sys rec a ar sr sv
            hfind hret harec hsolv hsrec hlt hqf,
          rfl, rfl,
          fun hl => absurd hl hlt,
          fun _ => ⟨fun hne => absurd hqf hne, fun _ => ⟨rfl, rfl, rfl, rfl⟩⟩⟩
      · exact ⟨_, pc_notified_no_pop_fewer sys rec a ar sr sv
            hfind hret harec hsolv hsrec hlt hqf,
          rfl, rfl,
          fun hl => absurd hl hlt,
          fun _ => ⟨fun _ => ⟨rfl, rfl, rfl, rfl⟩, fun he => absurd he hqf⟩⟩
  · intro sys rec hfind
    by_cases hqm : sys.pc.strategiesMore = []
    · exact ⟨_, pc_notified_no_assumption_exhausted sys rec hfind hqm,
        rfl, rfl,
        fun hne => absurd hqm hne, fun _ => ⟨rfl, rfl, rfl, rfl⟩⟩
    · exact ⟨_, pc_notified_no_assumption_pop sys rec hfind hqm,
        rfl, rfl,
        fun _ => ⟨rfl, rfl, rfl⟩, fun he => absurd he hqm⟩

/-- Witness for the amended C5 at the concrete scenario of the
counterexample. -/
theorem C5_amended_witness :
    ∃ sys', pc_be_notified (pcScenario 150 init_more init_fewer) rX "no" = .ok sys' ∧
      sys'.affirmations =
        removeFirst (fun x => x.oid == (101 : Nat))
          (pcScenario 150 init_more init_fewer).affirmations ∧
      sys'.pool = (pcScenario 150 init_more init_fewer).pool ∧
      ((150 : Int) < 100 →
        (init_more ≠ [] →
          sys'.pc.try_this = init_more.getLast? ∧
          sys'.pc.strategiesMore = init_more.dropLast ∧
          sys'.pc.strategiesFewer = init_fewer ∧
          sys'.pc.source_quality = none) ∧
        (init_more = [] →
          sys'.pc.try_this = none ∧
          sys'.pc.source_quality = some "POOR" ∧
          sys'.pc.strategiesMore = init_more ∧
          sys'.pc.strategiesFewer = init_fewer)) ∧
      (¬ (150 : Int) < 100 →
        (init_fewer ≠ [] →
          sys'.pc.try_this = init_fewer.getLast? ∧
          sys'.pc.strategiesFewer = init_fewer.dropLast ∧
          sys'.pc.strategiesMore = init_more ∧
          sys'.pc.source_quality = none) ∧
        (init_fewer = [] →
          sys'.pc.try_this = none ∧
          sys'.pc.source_quality = some "POOR" ∧
          sys'.pc.strategiesMore = init_more ∧
          sys'.pc.strategiesFewer = init_fewer)) :=
  C5_amended_rejected_feedback_state_machine.1
    (pcScenario 150 init_more init_fewer) rX
    ⟨101, some ⟨21, "Y", "Y", 150, none, KSId.similar⟩,
      KSId.playcount, "Try closest playcount", none, true⟩
    ⟨21, "Y", "Y", 150, none, KSId.similar⟩ rRef solvingAff
    rfl rfl rfl rfl rfl

/-! ## Claim C7: the tag agent's no-winner path -/

/-- A provider oracle with no similar artists and no tags (each lookup is
irrelevant to the scenarios using it). -/
def oracle0 : Oracle :=
  { getTrackInfo := fun a t => ⟨99, a, t, 0, none, KSId.info⟩,
    getSimilar := fun _ => [],
    getTopTrack := fun a => ⟨98, a, "top", 0, none, KSId.similar⟩,
    getTopTags := fun _ => [] }

/-- The solving reference for the tag scenarios: tags `["a"]`. -/
def srTag : Recommendation := ⟨10, "R", "T", 100, some ["a"], KSId.info⟩

/-- The tag no-winner scenario: the only pool candidate shares no tag with
the reference, and the agent holds no prior assumption. -/
def sysC7 : System :=
  { pool := [⟨11, "P", "Q", 50, some ["b"], KSId.similar⟩],
    affirmations := [⟨5, some srTag, KSId.info, "Initial song", none, false⟩],
    solving := some ⟨5, some srTag, KSId.info, "Initial song", none, false⟩,
    deps := [], pc := { strategiesMore := init_more, strategiesFewer := init_fewer,
                        try_this := none, source_quality := none },
    sim := { thinking_about := none, data_feed := [] },
    info := { thinking_about := none, cached := none },
    nextOid := 50 }

/-- Same scenario with an empty pool. -/
def sysC7empty : System := { sysC7 with pool := [] }

/-- Same scenario, but the agent still holds a retractable prior assumption
(so the id comparison in `_register_assumption` is reached first). -/
def sysC7prior : System :=
  { sysC7 with
    affirmations :=
      [⟨5, some srTag, KSId.info, "Initial song", none, false⟩,
       ⟨6, some ⟨12, "P2", "Q2", 60, some ["a"], KSId.similar⟩,
         KSId.tagsrc, "Closest match on tags", some 50, true⟩] }

/-- **C7 (code bug).**  When the tag agent finds no winner, `choose()` builds
the null result `{'score': ..., 'reco': None}` but then crashes inside
`_register_assumption` before returning it: with no prior assumption,
`None.add_dependent` raises `AttributeError`; with a prior assumption, the
`None.id` comparison raises first; the empty pool crashes the same way
instead of producing a null result. -/
theorem C7_no_winner_raises_instead_of_null_result :
    tag_choose oracle0 sysC7 =
      .error "AttributeError: 'NoneType' object has no attribute 'add_dependent'" ∧
    tag_choose oracle0 sysC7empty =
      .error "AttributeError: 'NoneType' object has no attribute 'add_dependent'" ∧
    tag_choose oracle0 sysC7prior =
      .error "AttributeError: 'NoneType' object has no attribute 'id'" :=
  ⟨rfl, rfl, rfl⟩

/-! ## Claim C1: accepting a candidate and `empty_pool` -/

/-- The seed track loaded by `get_info` in the C1 scenario. -/
def r0seed : Recommendation := ⟨0, "SA", "ST", 100, none, KSId.info⟩

/-- Its permanent `Initial song` assertion. -/
def initialAffC1 : Affirmation :=
  ⟨3, some r0seed, KSId.info, "Initial song", none, false⟩

/-- The accepted candidate (still pooled when the pool is emptied). -/
def rr1 : Recommendation := ⟨1, "A1", "T1", 100, none, KSId.similar⟩

/-- The other pooled candidate. -/
def rr2 : Recommendation := ⟨2, "A2", "T2", 50, none, KSId.similar⟩

/-- The state at the moment the user accepts `rr1`: the pool holds two
gathered candidates, both subscribed to the gathering agent. -/
def sysC1 : System :=
  { pool := [rr1, rr2],
    affirmations := [initialAffC1],
    solving := some initialAffC1,
    deps := [(1, KSId.similar), (2, KSId.similar)],
    pc := { strategiesMore := init_more, strategiesFewer := init_fewer,
            try_this := none, source_quality := none },
    sim := { thinking_about := some "SA", data_feed := [] },
    info := { thinking_about := some "SA - ST", cached := some r0seed },
    nextOid := 4 }

/-- The new `Liked by user` assertion recorded while accepting `rr1`. -/
def likedAffC1 : Affirmation :=
  ⟨4, some rr1, KSId.similar, "Liked by user", none, false⟩

/-- The state `Controller.like` actually produces from `sysC1` (the refill
oracle returns no similar artists, so the gather step admits nothing). -/
def sysC1' : System :=
  { pool := [rr2],
    affirmations := [initialAffC1, likedAffC1],
    solving := some likedAffC1,
    deps := [(1, KSId.similar), (2, KSId.similar)],
    pc := { strategiesMore := init_more, strategiesFewer := init_fewer,
            try_this := none, source_quality := none },
    sim := { thinking_about := some "A1", data_feed := [] },
    info := { thinking_about := some "SA - ST", cached := some r0seed },
    nextOid := 5 }

/-- **C1 (code bug).**  Accepting a candidate does record the permanent
`Liked by user` assertion and does point `solving` at it, but the
`empty_pool` sweep removes elements of the list it is iterating over, so a
two-candidate pool ends up with one candidate instead of zero: the pool is
*not* cleared to size 0. -/
theorem C1_accept_records_liked_but_leaves_half_pool :
    like oracle0 sysC1 rr1 = .ok sysC1' ∧
    sysC1.pool.length = 2 ∧
    sysC1'.pool = [rr2] ∧
    sysC1'.pool.length = 1 ∧
    sysC1'.solving = some likedAffC1 ∧
    likedAffC1.reason = "Liked by user" ∧
    likedAffC1.retractable = false ∧
    likedAffC1.recommendation = some rr1 ∧
    sysC1'.affirmations = [initialAffC1, likedAffC1] ∧
    (1 : Nat) ≠ 0 :=
  ⟨rfl, rfl, rfl, rfl, rfl, rfl, rfl, rfl, rfl, by decide⟩

/-! ## Claim C9: first gather invocation and feed orientation -/

/-- A provider with three ranked similar artists (`s1` most similar). -/
def oracle3 : Oracle :=
  { getTrackInfo := fun a t => ⟨30, a, t, 0, none, KSId.similar⟩,
    getSimilar := fun _ => ["s1", "s2", "s3"],
    getTopTrack := fun a => ⟨31, a, "hit", 0, none, KSId.similar⟩,
    getTopTags := fun _ => [] }

/-- **C9, counterexample.**  The provider ranks `s1` most similar and `s3`
least similar.  The first gather invocation admits the top track of `s1` —
the *most* similar artist — because `data_feed.pop()` pops from the tail of
the reversed feed; the claim predicts the least-similar `s3` track would be
consumed first. -/
theorem C9_counterexample_most_similar_consumed_first :
    (get_recommendations oracle3 initSystem "S" "x" 1).pool.map Recommendation.id =
      ["s1 - hit"] ∧
    (oracle3.getSimilar "S").head? = some "s1" ∧
    (oracle3.getSimilar "S").getLast? = some "s3" ∧
    ("s1 - hit" : String) ≠ "s3 - hit" ∧
    (get_recommendations oracle3 initSystem "S" "x" 1).sim.data_feed =
      [⟨31, "s3", "hit", 0, none, KSId.similar⟩,
       ⟨31, "s2", "hit", 0, none, KSId.similar⟩] :=
  ⟨rfl, rfl, rfl, by decide, rfl⟩

/-- `considered_songs` does not read the gathering agent's private state. -/
theorem considered_songs_set_sim (sys : System) (z : SimState) :
    considered_songs { sys with sim := z } = considered_songs sys := rfl

/-- **C9, amended.**  On the first gather invocation for a seed artist the
agent installs, as its feed, the reversed list of the single top track of
each related artist (provider order: most-similar first), and then consumes
the feed from its tail: the *most similar* artist's track is looked up and
admitted first, and the remaining feed keeps the less-similar options —
with the least-similar track now at the consumed end last (i.e. saved for
the latest gather calls), the opposite orientation to the claim. -/
theorem C9_amended_first_gather_consumes_most_similar
    (o : Oracle) (sys : System) (artist track : String)
    (a : String) (rest : List String)
    (hsim : o.getSimilar artist = a :: rest)
    (hthink : sys.sim.thinking_about ≠ some artist)
    (hnew : (o.getTrackInfo (o.getTopTrack a).artistName
        (o.getTopTrack a).name).id ∉ considered_songs sys) :
    (get_recommendations o sys artist track 1).pool =
      sys.pool ++ [o.getTrackInfo (o.getTopTrack a).artistName (o.getTopTrack a).name] ∧
    (get_recommendations o sys artist track 1).sim.thinking_about = some artist ∧
    (get_recommendations o sys artist track 1).sim.data_feed =
      (rest.map o.getTopTrack).reverse ∧
    (get_recommendations o sys artist track 1).deps =
      sys.deps ++ [((o.getTrackInfo (o.getTopTrack a).artistName
        (o.getTopTrack a).name).oid, KSId.similar)] := by
  simp only [get_recommendations, if_pos hthink, hsim, List.map_cons]
  simp [gather_loop, assure_unique, assure_unique_pop, considered_songs_set_sim,
    List.reverse_reverse, hnew]

/-- Witness for the amended C9 at the three-artist provider. -/
theorem C9_amended_witness :
    (get_recommendations oracle3 initSystem "S" "x" 1).pool =
      initSystem.pool ++ [oracle3.getTrackInfo
        (oracle3.getTopTrack "s1").artistName (oracle3.getTopTrack "s1").name] ∧
    (get_recommendations oracle3 initSystem "S" "x" 1).sim.thinking_about = some "S" ∧
    (get_recommendations oracle3 initSystem "S" "x" 1).sim.data_feed =
      (["s2", "s3"].map oracle3.getTopTrack).reverse ∧
    (get_recommendations oracle3 initSystem "S" "x" 1).deps =
      initSystem.deps ++ [((oracle3.getTrackInfo
        (oracle3.getTopTrack "s1").artistName (oracle3.getTopTrack "s1").name).oid,
        KSId.similar)] :=
  C9_amended_first_gather_consumes_most_similar oracle3 initSystem "S" "x"
    "s1" ["s2", "s3"] rfl (by decide) (by decide)

/-! ## Claim C4: playcount bucket scores -/

/-- The score/delta discipline every bucket of `position` obeys: a filled
bucket's `delta` is its candidate's playcount minus the reference, the
closest bucket scores `100 - pct_diff`, the two `a lot` buckets score
`pct_diff`, and the `more`/`fewer` buckets score `100 - pct_diff` — both
when filled directly and when filled by displacement of a previous closest
pick.  An unfilled closest bucket is still the initial one. -/
def GoodPos (refPc : Int) (pos : Position) : Prop :=
  (∀ r, pos.closest.reco = some r →
    pos.closest.delta = deltaOf refPc r ∧
    pos.closest.score = 100 - pctOf refPc r) ∧
  (pos.closest.reco = none → pos.closest = initPosition.closest) ∧
  (∀ r, pos.aLotMore.reco = some r →
    pos.aLotMore.delta = deltaOf refPc r ∧
    pos.aLotMore.score = pctOf refPc r) ∧
  (∀ r, pos.aLotFewer.reco = some r →
    pos.aLotFewer.delta = deltaOf refPc r ∧
    pos.aLotFewer.score = pctOf refPc r) ∧
  (∀ r, pos.more.reco = some r →
    pos.more.delta = deltaOf refPc r ∧
    pos.more.score = 100 - pctOf refPc r) ∧
  (∀ r, pos.fewer.reco = some r →
    pos.fewer.delta = deltaOf refPc r ∧
    pos.fewer.score = 100 - pctOf refPc r)

theorem initPosition_good (refPc : Int) : GoodPos refPc initPosition := by
  refine ⟨?_, fun _ => rfl, ?_, ?_, ?_, ?_⟩ <;> intro r hr <;> simp [initPosition] at hr

theorem closest_block_good (refPc : Int) (song : Recommendation) (pos : Position)
    (h : GoodPos refPc pos) : GoodPos refPc (closest_block refPc song pos) := by
  obtain ⟨hc, hcn, ham, haf, hm, hf⟩ := h
  unfold closest_block
  by_cases h1 : iabs (deltaOf refPc song) < iabs pos.closest.delta
  · rw [if_pos h1]
    by_cases h2 : pos.closest.delta > deltaOf refPc song
    · rw [if_pos h2]
      refine ⟨?_, ?_, ham, haf, hc, hf⟩
      · intro r hr
        obtain rfl : song = r := by simpa using hr
        exact ⟨rfl, rfl⟩
      · intro hr; simp at hr
    · rw [if_neg h2]
      by_cases h3 : pos.closest.delta < deltaOf refPc song
      · rw [if_pos h3]
        refine ⟨?_, ?_, ham, haf, hm, hc⟩
        · intro r hr
          obtain rfl : song = r := by simpa using hr
          exact ⟨rfl, rfl⟩
        · intro hr; simp at hr
      · rw [if_neg h3]
        refine ⟨?_, ?_, ham, haf, hm, hf⟩
        · intro r hr
          obtain rfl : song = r := by simpa using hr
          exact ⟨rfl, rfl⟩
        · intro hr; simp at hr
  · rw [if_neg h1]
    exact ⟨hc, hcn, ham, haf, hm, hf⟩

theorem a_lot_more_block_good (refPc : Int) (song : Recommendation) (pos : Position)
    (h : GoodPos refPc pos) : GoodPos refPc (a_lot_more_block refPc song pos) := by
  obtain ⟨hc, hcn, ham, haf, hm, hf⟩ := h
  unfold a_lot_more_block
  by_cases h1 : deltaOf refPc song > 0 ∧ deltaOf refPc song > pos.aLotMore.delta
  · rw [if_pos h1]
    refine ⟨hc, hcn, ?_, haf, hm, hf⟩
    intro r hr
    obtain rfl : song = r := by simpa using hr
    exact ⟨rfl, rfl⟩
  · rw [if_neg h1]
    exact ⟨hc, hcn, ham, haf, hm, hf⟩

theorem a_lot_fewer_block_good (refPc : Int) (song : Recommendation) (pos : Position)
    (h : GoodPos refPc pos) : GoodPos refPc (a_lot_fewer_block refPc song pos) := by
  obtain ⟨hc, hcn, ham, haf, hm, hf⟩ := h
  unfold a_lot_fewer_block
  by_cases h1 : deltaOf refPc song < 0 ∧ deltaOf refPc song < pos.aLotFewer.delta
  · rw [if_pos h1]
    refine ⟨hc, hcn, ham, ?_, hm, hf⟩
    intro r hr
    obtain rfl : song = r := by simpa using hr
    exact ⟨rfl, rfl⟩
  · rw [if_neg h1]
    exact ⟨hc, hcn, ham, haf, hm, hf⟩

theorem more_block_good (refPc : Int) (song : Recommendation) (pos : Position)
    (h : GoodPos refPc pos) : GoodPos refPc (more_block refPc song pos) := by
  obtain ⟨hc, hcn, ham, haf, hm, hf⟩ := h
  unfold more_block
  by_cases h1 : deltaOf refPc song > 0 ∧ deltaOf refPc song < pos.more.delta ∧ deltaOf refPc song > pos.closest.delta
  · rw [if_pos h1]
    refine ⟨hc, hcn, ham, haf, ?_, hf⟩
    intro r hr
    obtain rfl : song = r := by simpa using hr
    exact ⟨rfl, rfl⟩
  · rw [if_neg h1]
    exact ⟨hc, hcn, ham, haf, hm, hf⟩

theorem fewer_block_good (refPc : Int) (song : Recommendation) (pos : Position)
    (h : GoodPos refPc pos) : GoodPos refPc (fewer_block refPc song pos) := by
  obtain ⟨hc, hcn, ham, haf, hm, hf⟩ := h
  unfold fewer_block
  by_cases h1 : deltaOf refPc song < 0 ∧ deltaOf refPc song > pos.fewer.delta ∧ deltaOf refPc song < pos.closest.delta
  · rw [if_pos h1]
    refine ⟨hc, hcn, ham, haf, hm, ?_⟩
    intro r hr
    obtain rfl : song = r := by simpa using hr
    exact ⟨rfl, rfl⟩
  · rw [if_neg h1]
    exact ⟨hc, hcn, ham, haf, hm, hf⟩

theorem stepSong_good (refPc : Int) (pos : Position) (song : Recommendation)
    (h : GoodPos refPc pos) : GoodPos refPc (stepSong refPc pos song) :=
  fewer_block_good _ _ _
    (more_block_good _ _ _
      (a_lot_fewer_block_good _ _ _
        (a_lot_more_block_good _ _ _
          (closest_block_good _ _ _ h))))

theorem foldl_stepSong_good (refPc : Int) (pool : List Recommendation)
    (pos : Position) (h : GoodPos refPc pos) :
    GoodPos refPc (pool.foldl (stepSong refPc) pos) := by
  induction pool generalizing pos with
  | nil => exact h
  | cons song rest ih => exact ih _ (stepSong_good refPc pos song h)

theorem computePosition_good (refPc : Int) (pool : List Recommendation) :
    GoodPos refPc (computePosition refPc pool) :=
  foldl_stepSong_good refPc pool initPosition (initPosition_good refPc)

/-- Pool candidate with playcount 90. -/
def c90 : Recommendation := ⟨11, "B1", "S1", 90, none, KSId.similar⟩

/-- Pool candidate with playcount 150. -/
def c150 : Recommendation := ⟨12, "B2", "S2", 150, none, KSId.similar⟩

/-- Pool candidate with playcount 200. -/
def c200 : Recommendation := ⟨13, "B3", "S3", 200, none, KSId.similar⟩

/-- Pool candidate with playcount 120. -/
def c120 : Recommendation := ⟨14, "B4", "S4", 120, none, KSId.similar⟩

/-- **C4, counterexample.**  With reference playcount 100 and pool
`[90, 120]`, candidate 120 fills the `more plays` bucket on the *direct*
path (the closest pick stays the 90 candidate, so 120 was never a
displaced closest), yet its score is `100 - pct_diff = 80`, not the
`pct_diff = 20` the claim predicts for a directly filled directional
bucket. -/
theorem C4_counterexample_direct_more_scores_100_minus_pct :
    (computePosition 100 [c90, c120]).more = ⟨20, some c120, 80⟩ ∧
    (computePosition 100 [c90, c120]).closest = ⟨-10, some c90, 90⟩ ∧
    pctOf 100 c120 = 20 ∧
    (80 : ℚ) ≠ 20 := by
  refine ⟨?_, ?_, ?_, by norm_num⟩ <;>
    norm_num [computePosition, stepSong, closest_block, a_lot_more_block,
      a_lot_fewer_block, more_block, fewer_block, initPosition, deltaOf,
      pctOf, iabs, pyabs, maxint, c90, c120]

/-- The playcount-scenario system with pool `[90, 150, 200]`, reference
playcount 100 and the given strategy. -/
def sysC4 (t : Option String) : System :=
  { pool := [c90, c150, c200],
    affirmations := [solvingAff],
    solving := some solvingAff,
    deps := [],
    pc := { strategiesMore := init_more, strategiesFewer := init_fewer,
            try_this := t, source_quality := none },
    sim := { thinking_about := none, data_feed := [] },
    info := { thinking_about := none, cached := none },
    nextOid := 60 }

/-- Reduction of a successful bind in the exception monad. -/
theorem ok_bind {ε α β : Type} (x : α) (f : α → Except ε β) :
    (Except.ok (ε := ε) x >>= f) = f x := rfl

/-- `toOption` of the two `Except` constructors. -/
theorem toOption_ok {ε α : Type} (x : α) :
    (Except.ok (ε := ε) x).toOption = some x := rfl

/-- The position computed from pool playcounts 90/150/200 at reference 100. -/
theorem computePosition_c4 :
    computePosition 100 [c90, c150, c200] =
      ⟨⟨-10, some c90, 90⟩, ⟨100, some c200, 100⟩, ⟨-10, some c90, 10⟩,
       ⟨50, some c150, 50⟩, ⟨-maxint - 1, none, 0⟩⟩ := by
  norm_num [computePosition, stepSong, closest_block, a_lot_more_block,
    a_lot_fewer_block, more_block, fewer_block, initPosition, deltaOf,
    pctOf, iabs, pyabs, maxint, c90, c150, c200]

set_option maxRecDepth 10000 in
theorem pc_choose_c4_closest :
    (pc_choose (sysC4 (some "closest playcount"))).toOption.map
      (fun x => x.1) = some (some ⟨-10, some c90, 90⟩) := by
  have hpos := computePosition_c4
  simp only [pc_choose, sysC4, solvingAff, rRef] at hpos ⊢
  simp [hpos, priority_fallback, Position.get, next_best_idea,
    pc_register_strategy, pc_register_new, ok_bind, toOption_ok]

set_option maxRecDepth 10000 in
theorem pc_choose_c4_a_lot_more :
    (pc_choose (sysC4 (some "a lot more plays"))).toOption.map
      (fun x => x.1) = some (some ⟨100, some c200, 100⟩) := by
  have hpos := computePosition_c4
  simp only [pc_choose, sysC4, solvingAff, rRef] at hpos ⊢
  simp [hpos, priority_fallback, Position.get, next_best_idea,
    pc_register_strategy, pc_register_new, ok_bind, toOption_ok]

/-- **C4, amended.**  For every pool and positive reference playcount, every
filled bucket's `delta` is its candidate's playcount minus the reference
and the scores are: closest `100 - pct_diff`; `a lot more` / `a lot fewer`
`pct_diff`; `more` / `fewer` *always* `100 - pct_diff` (directly filled or
displaced — the claim's `pct_diff` for the direct path is wrong).  In
particular with reference 100 and pool playcounts 90/150/200, strategy
`closest playcount` picks the 90 candidate with score 90 and strategy
`a lot more plays` picks the 200 candidate with score 100. -/
theorem C4_amended_bucket_scores (refPc : Int) (pool : List Recommendation)
    (_href : 0 < refPc) :
    GoodPos refPc (computePosition refPc pool) ∧
    ((pc_choose (sysC4 (some "closest playcount"))).toOption.map
        (fun x => x.1) = some (some ⟨-10, some c90, 90⟩)) ∧
    ((pc_choose (sysC4 (some "a lot more plays"))).toOption.map
        (fun x => x.1) = some (some ⟨100, some c200, 100⟩)) :=
  ⟨computePosition_good refPc pool, pc_choose_c4_closest, pc_choose_c4_a_lot_more⟩

/-- Witness for the amended C4 at reference playcount 100. -/
theorem C4_amended_witness :
    GoodPos 100 (computePosition 100 [c90, c150, c200]) ∧
    ((pc_choose (sysC4 (some "closest playcount"))).toOption.map
        (fun x => x.1) = some (some ⟨-10, some c90, 90⟩)) ∧
    ((pc_choose (sysC4 (some "a lot more plays"))).toOption.map
        (fun x => x.1) = some (some ⟨100, some c200, 100⟩)) :=
  C4_amended_bucket_scores 100 [c90, c150, c200] (by decide)

/-! ## Claim C6: the tag agent's winner -/

/-- The largest tag-match count over a pool. -/
def tag_max_count (oracle : Oracle) (tags_to_match : List String)
    (pool : List Recommendation) : Nat :=
  pool.foldr
    (fun s m => max (tag_match_count tags_to_match (song_tags oracle s)) m) 0

theorem find?_cons_pos (p : α → Bool) (a : α) (l : List α) (h : p a = true) :
    (a :: l).find? p = some a := by
  simp [List.find?, h]

theorem find?_cons_neg (p : α → Bool) (a : α) (l : List α) (h : p a = false) :
    (a :: l).find? p = l.find? p := by
  simp [List.find?, h]

theorem tag_max_count_cons (oracle : Oracle) (T : List String)
    (s : Recommendation) (l : List Recommendation) :
    tag_max_count oracle T (s :: l) =
      max (tag_match_count T (song_tags oracle s)) (tag_max_count oracle T l) := rfl

theorem le_tag_max_count (oracle : Oracle) (T : List String)
    {s : Recommendation} {l : List Recommendation} (hs : s ∈ l) :
    tag_match_count T (song_tags oracle s) ≤ tag_max_count oracle T l := by
  induction l with
  | nil => simp at hs
  | cons x xs ih =>
    rw [tag_max_count_cons]
    rcases List.mem_cons.mp hs with rfl | hs'
    · exact Nat.le_max_left _ _
    · exact le_trans (ih hs') (Nat.le_max_right _ _)

theorem tag_max_count_attained (oracle : Oracle) (T : List String)
    {l : List Recommendation} (h : 0 < tag_max_count oracle T l) :
    ∃ s ∈ l, tag_match_count T (song_tags oracle s) = tag_max_count oracle T l := by
  induction l with
  | nil => simp [tag_max_count] at h
  | cons x xs ih =>
    rw [tag_max_count_cons] at h ⊢
    rcases Nat.le_total (tag_max_count oracle T xs)
        (tag_match_count T (song_tags oracle x)) with hle | hle
    · exact ⟨x, List.mem_cons_self x xs, (Nat.max_eq_left hle).symm⟩
    · rw [Nat.max_eq_right hle] at h ⊢
      obtain ⟨s, hs, hmax⟩ := ih h
      exact ⟨s, List.mem_cons_of_mem _ hs, hmax⟩

/-- The winner scan of `TagSource.choose`, characterised: the final count is
the running maximum, a scan started at-or-above the pool maximum never
changes, and a scan started strictly below it ends at the *first* candidate
attaining the final count. -/
theorem tag_fold_spec (oracle : Oracle) (T : List String)
    (l : List Recommendation) :
    ∀ (b : Nat) (w : Option Recommendation),
      ((l.foldl (tag_best_step oracle T) (b, w)).1 =
        max b (tag_max_count oracle T l)) ∧
      (tag_max_count oracle T l ≤ b →
        l.foldl (tag_best_step oracle T) (b, w) = (b, w)) ∧
      (b < tag_max_count oracle T l →
        (l.foldl (tag_best_step oracle T) (b, w)).2 =
          l.find? (fun s => tag_match_count T (song_tags oracle s) ==
            (l.foldl (tag_best_step oracle T) (b, w)).1)) := by
  induction l with
  | nil =>
    intro b w
    refine ⟨by simp [tag_max_count], fun _ => rfl, fun h => ?_⟩
    simp [tag_max_count] at h
  | cons x xs ih =>
    intro b w
    have hstep : tag_best_step oracle T (b, w) x =
        if b < tag_match_count T (song_tags oracle x) then
          (tag_match_count T (song_tags oracle x), some x)
        else (b, w) := rfl
    set c := tag_match_count T (song_tags oracle x) with hcdef
    set M := tag_max_count oracle T xs with hMdef
    have hconsM : tag_max_count oracle T (x :: xs) = max c M :=
      tag_max_count_cons oracle T x xs
    by_cases hbc : b < c
    · have hfold : (x :: xs).foldl (tag_best_step oracle T) (b, w) =
          xs.foldl (tag_best_step oracle T) (c, some x) := by
        simp [List.foldl_cons, hstep, hbc]
      obtain ⟨ih1, ih2, ih3⟩ := ih c (some x)
      refine ⟨?_, ?_, ?_⟩
      · rw [hfold, ih1, hconsM]
        omega
      · intro hle
        rw [hconsM] at hle
        omega
      · intro _
        rw [hfold]
        rcases Nat.le_total M c with hMc | hMc
        · rw [ih2 hMc]
          dsimp only
          have hfx : (tag_match_count T (song_tags oracle x) == c) = true := by
            simp [hcdef]
          rw [find?_cons_pos (fun s => tag_match_count T (song_tags oracle s) == c)
            x xs hfx]
        · rcases Nat.lt_or_ge c M with hlt | hge
          · have h1 : (xs.foldl (tag_best_step oracle T) (c, some x)).1 = M := by
              rw [ih1]; omega
            rw [ih3 hlt, h1]
            have hfx : (tag_match_count T (song_tags oracle x) == M) = false := by
              simp only [beq_eq_false_iff_ne, ne_eq]
              omega
            rw [find?_cons_neg (fun s => tag_match_count T (song_tags oracle s) == M)
              x xs hfx]
          · rw [ih2 (by omega)]
            dsimp only
            have hfx : (tag_match_count T (song_tags oracle x) == c) = true := by
              simp [hcdef]
            rw [find?_cons_pos (fun s => tag_match_count T (song_tags oracle s) == c)
              x xs hfx]
    · have hfold : (x :: xs).foldl (tag_best_step oracle T) (b, w) =
          xs.foldl (tag_best_step oracle T) (b, w) := by
        simp [List.foldl_cons, hstep, hbc]
      obtain ⟨ih1, ih2, ih3⟩ := ih b w
      refine ⟨?_, ?_, ?_⟩
      · rw [hfold, ih1, hconsM]
        omega
      · intro hle
        rw [hconsM] at hle
        rw [hfold, ih2 (by omega)]
      · intro hlt
        rw [hconsM] at hlt
        have hbM : b < M := by omega
        have h1 : (xs.foldl (tag_best_step oracle T) (b, w)).1 = M := by
          rw [ih1]; omega
        rw [hfold, ih3 hbM, h1]
        have hfx : (tag_match_count T (song_tags oracle x) == M) = false := by
          simp only [beq_eq_false_iff_ne, ne_eq]
          omega
        rw [find?_cons_neg (fun s => tag_match_count T (song_tags oracle s) == M)
          x xs hfx]

theorem tag_register_new_isOk (sys : System) (score : ℚ) (r : Recommendation) :
    ∃ sys', tag_register_new sys score (some r) = .ok sys' :=
  ⟨_, rfl⟩

/-- With an actual winner, `_register_assumption` cannot raise, provided the
agent's own retractable affirmations all carry a recommendation. -/
theorem tag_register_assumption_some_isOk (sys : System) (score : ℚ)
    (r : Recommendation)
    (Htag : ∀ a ∈ sys.affirmations,
      a.knowledge_source = KSId.tagsrc → a.retractable = true →
      a.recommendation ≠ none) :
    ∃ sys', tag_register_assumption sys score (some r) = .ok sys' := by
  unfold tag_register_assumption
  cases hfind : sys.affirmations.find?
      (fun a => a.knowledge_source == KSId.tagsrc && a.retractable) with
  | none => exact tag_register_new_isOk _ _ _
  | some a =>
    have hmem := List.mem_of_find?_eq_some hfind
    have hprop := List.find?_some hfind
    simp only [Bool.and_eq_true, beq_iff_eq] at hprop
    have har : a.recommendation ≠ none := Htag a hmem hprop.1 hprop.2
    obtain ⟨ar, har'⟩ := Option.ne_none_iff_exists'.mp har
    simp only [har']
    by_cases hid : ar.id = r.id
    · exact ⟨sys, by simp [hid]⟩
    · simpa [hid] using tag_register_new_isOk _ score r

/-- First pool candidate with tags `{a, b}`. -/
def ct1 : Recommendation := ⟨15, "C1", "D1", 0, some ["a", "b"], KSId.similar⟩

/-- Second pool candidate with tags `{a}`. -/
def ct2 : Recommendation := ⟨16, "C2", "D2", 0, some ["a"], KSId.similar⟩

/-- The reference candidate with tags `{a, b, c}`. -/
def srTag6 : Recommendation := ⟨17, "R6", "T6", 0, some ["a", "b", "c"], KSId.info⟩

/-- Its solving assertion. -/
def aff6 : Affirmation := ⟨7, some srTag6, KSId.info, "Initial song", none, false⟩

/-- The concrete tag-matching scenario of the claim. -/
def sysC6 : System :=
  { pool := [ct1, ct2],
    affirmations := [aff6],
    solving := some aff6,
    deps := [],
    pc := { strategiesMore := init_more, strategiesFewer := init_fewer,
            try_this := none, source_quality := none },
    sim := { thinking_about := none, data_feed := [] },
    info := { thinking_about := none, cached := none },
    nextOid := 70 }

set_option maxRecDepth 10000 in
theorem tag_choose_c6_concrete :
    (tag_choose oracle0 sysC6).toOption.map (fun x => (x.1, x.2.1)) =
      some (200 / 3, some ct1) := by
  simp [tag_choose, sysC6, aff6, srTag6, song_tags, tag_best_step,
    tag_match_count, tag_register_assumption, tag_register_new, ok_bind,
    toOption_ok, ct1, ct2]
  norm_num

/-- **C6.**  For every reference with a non-empty (cached) tag list and every
pool containing at least one candidate sharing a tag with it, the tag
agent's `choose()` succeeds and selects exactly the *first* pool candidate
attaining the strictly largest tag-match count (ties keep the first found:
every candidate before the winner scores strictly less), with score
`(matched count / reference tag count) × 100`.  In particular with
reference tags `{a,b,c}` and pool tags `{a,b}`, `{a}`, the `{a,b}`
candidate wins with score `200/3`, displayed as `66.67` (the `%.2f`
rounding of `100×score` is `6667`). -/
theorem C6_tag_choose_selects_first_strict_max (oracle : Oracle) (sys : System)
    (sv : Affirmation) (sr : Recommendation) (refTags : List String)
    (hsolv : sys.solving = some sv) (hsrec : sv.recommendation = some sr)
    (htags : sr.tags = some refTags) (hne : refTags ≠ [])
    (hpos : 0 < tag_max_count oracle refTags sys.pool)
    (Htag : ∀ a ∈ sys.affirmations,
      a.knowledge_source = KSId.tagsrc → a.retractable = true →
      a.recommendation ≠ none) :
    (∃ w sys',
      tag_choose oracle sys =
        .ok (((tag_max_count oracle refTags sys.pool : ℚ) /
            (refTags.length : ℚ)) * 100, some w, sys') ∧
      some w = sys.pool.find? (fun s =>
        tag_match_count refTags (song_tags oracle s) ==
          tag_max_count oracle refTags sys.pool) ∧
      w ∈ sys.pool ∧
      tag_match_count refTags (song_tags oracle w) =
        tag_max_count oracle refTags sys.pool ∧
      (∀ s ∈ sys.pool, tag_match_count refTags (song_tags oracle s) ≤
        tag_max_count oracle refTags sys.pool) ∧
      (∃ l1 l2, sys.pool = l1 ++ w :: l2 ∧
        ∀ s ∈ l1, tag_match_count refTags (song_tags oracle s) <
          tag_max_count oracle refTags sys.pool)) ∧
    ((tag_choose oracle0 sysC6).toOption.map (fun x => (x.1, x.2.1)) =
      some (200 / 3, some ct1)) ∧
    round ((100 : ℚ) * (200 / 3)) = (6667 : ℤ) := by
  refine ⟨?_, tag_choose_c6_concrete, by norm_num [round_eq]⟩
  set M := tag_max_count oracle refTags sys.pool with hMdef
  have hT : song_tags oracle sr = refTags := by simp [song_tags, htags]
  -- the winner exists and is the first candidate attaining the maximum
  obtain ⟨ws, hws, hwmax⟩ := tag_max_count_attained oracle refTags hpos
  have hfindSome : (sys.pool.find? (fun s =>
      tag_match_count refTags (song_tags oracle s) == M)).isSome :=
    List.find?_isSome.mpr ⟨ws, hws, by simp [hwmax]⟩
  obtain ⟨w, hw⟩ := Option.isSome_iff_exists.mp hfindSome
  have hwP := List.find?_some hw
  have hwMem := List.mem_of_find?_eq_some hw
  have hwCnt : tag_match_count refTags (song_tags oracle w) = M := by
    simpa using hwP
  -- the fold returns exactly (M, some w)
  obtain ⟨f1, f2, f3⟩ := tag_fold_spec oracle refTags sys.pool 0 none
  have hres1 : (sys.pool.foldl (tag_best_step oracle refTags) (0, none)).1 = M := by
    rw [f1]; omega
  have hres2 : (sys.pool.foldl (tag_best_step oracle refTags) (0, none)).2 = some w := by
    rw [f3 hpos]
    rw [hres1]
    exact hw
  have hbest : sys.pool.foldl (tag_best_step oracle refTags) (0, none) = (M, some w) :=
    Prod.ext hres1 hres2
  -- the registration cannot raise
  obtain ⟨sys', hreg⟩ := tag_register_assumption_some_isOk sys
    (((M : ℚ) / (refTags.length : ℚ)) * 100) w Htag
  refine ⟨w, sys', ?_, ?_, hwMem, hwCnt, ?_, ?_⟩
  · have hlen : ¬ (refTags.length = 0) := by
      simpa [List.length_eq_zero] using hne
    simp [tag_choose, hsolv, hsrec, hT, hbest, hlen, hne, hreg, ok_bind]
  · exact hw.symm
  · intro s hs
    exact le_tag_max_count oracle refTags hs
  · obtain ⟨hpw, l1, l2, hsplit, hfail⟩ := List.find?_eq_some.mp hw
    refine ⟨l1, l2, hsplit, ?_⟩
    intro s hs
    have := hfail s hs
    simp only [Bool.not_eq_true', beq_eq_false_iff_ne, ne_eq] at this
    have hle : tag_match_count refTags (song_tags oracle s) ≤ M :=
      le_tag_max_count oracle refTags (by rw [hsplit]; exact List.mem_append_left _ hs)
    omega

/-- Witness for C6 at the concrete scenario. -/
theorem C6_tag_choose_witness :
    (∃ w sys',
      tag_choose oracle0 sysC6 =
        .ok (((tag_max_count oracle0 ["a", "b", "c"] sysC6.pool : ℚ) /
            ((["a", "b", "c"] : List String).length : ℚ)) * 100, some w, sys') ∧
      some w = sysC6.pool.find? (fun s =>
        tag_match_count ["a", "b", "c"] (song_tags oracle0 s) ==
          tag_max_count oracle0 ["a", "b", "c"] sysC6.pool) ∧
      w ∈ sysC6.pool ∧
      tag_match_count ["a", "b", "c"] (song_tags oracle0 w) =
        tag_max_count oracle0 ["a", "b", "c"] sysC6.pool ∧
      (∀ s ∈ sysC6.pool, tag_match_count ["a", "b", "c"] (song_tags oracle0 s) ≤
        tag_max_count oracle0 ["a", "b", "c"] sysC6.pool) ∧
      (∃ l1 l2, sysC6.pool = l1 ++ w :: l2 ∧
        ∀ s ∈ l1, tag_match_count ["a", "b", "c"] (song_tags oracle0 s) <
          tag_max_count oracle0 ["a", "b", "c"] sysC6.pool)) ∧
    ((tag_choose oracle0 sysC6).toOption.map (fun x => (x.1, x.2.1)) =
      some (200 / 3, some ct1)) ∧
    round ((100 : ℚ) * (200 / 3)) = (6667 : ℤ) :=
  C6_tag_choose_selects_first_strict_max oracle0 sysC6 aff6 srTag6
    ["a", "b", "c"] rfl rfl rfl (by decide) (by decide)
    (by intro a ha h1 h2; simp [sysC6] at ha; subst ha; simp [aff6] at h1)

/-! ## Claim C3: pairwise-distinct pool identities

The invariant is proved over every state the controller can reach: the only
operation that ever adds to the pool is the gather loop, whose
`assure_unique` guard filters against the pool ids (among others); all
other operations only remove pool entries or leave the pool alone. -/

theorem empty_pool_go_sublist (fuel : Nat) :
    ∀ (pool : List Recommendation) (i : Nat),
      List.Sublist (empty_pool_go fuel pool i) pool := by
  induction fuel with
  | zero => intro pool i; exact List.Sublist.refl _
  | succ fuel ih =>
    intro pool i
    unfold empty_pool_go
    split
    · exact List.Sublist.trans (ih _ _) (removeFirst_sublist _ _)
    · exact List.Sublist.refl _

theorem empty_pool_sublist (pool : List Recommendation) :
    List.Sublist (empty_pool pool) pool :=
  empty_pool_go_sublist pool.length pool 0

theorem nodup_concat {x : α} {l : List α} (h : l.Nodup) (hx : x ∉ l) :
    (l ++ [x]).Nodup := by
  rw [List.nodup_append]
  refine ⟨h, List.nodup_singleton x, ?_⟩
  intro a ha hax
  simp only [List.mem_singleton] at hax
  subst hax
  exact hx ha

theorem assure_unique_pop_fresh (oracle : Oracle) (considered : List String) :
    ∀ (feedRev : List Recommendation) (r : Recommendation),
      (assure_unique_pop oracle considered feedRev).1 = some r →
      r.id ∉ considered := by
  intro feedRev
  induction feedRev with
  | nil => intro r h; simp [assure_unique_pop] at h
  | cons song rest ih =>
    intro r h
    unfold assure_unique_pop at h
    dsimp only at h
    split at h
    · exact ih r h
    · rename_i hnot
      simp only at h
      obtain rfl : oracle.getTrackInfo song.artistName song.name = r := by
        simpa using h
      exact hnot

theorem assure_unique_pop_all_dup (oracle : Oracle) (considered : List String) :
    ∀ (feedRev : List Recommendation),
      (∀ song ∈ feedRev,
        (oracle.getTrackInfo song.artistName song.name).id ∈ considered) →
      (assure_unique_pop oracle considered feedRev).1 = none := by
  intro feedRev
  induction feedRev with
  | nil => intro _; rfl
  | cons song rest ih =>
    intro hall
    unfold assure_unique_pop
    dsimp only
    split
    · exact ih (fun s hs => hall s (List.mem_cons_of_mem _ hs))
    · rename_i hnot
      exact absurd (hall song (List.mem_cons_self _ _)) hnot

theorem assure_unique_pool (oracle : Oracle) (sys : System) :
    (assure_unique oracle sys).2.pool = sys.pool := rfl

theorem pool_id_mem_considered (sys : System) {x : String}
    (hx : x ∈ sys.pool.map Recommendation.id) : x ∈ considered_songs sys := by
  unfold considered_songs
  exact List.mem_append_right _ hx

theorem assure_unique_fresh {oracle : Oracle} {sys : System}
    {r : Recommendation} (h : (assure_unique oracle sys).1 = some r) :
    r.id ∉ sys.pool.map Recommendation.id := by
  have := assure_unique_pop_fresh oracle (considered_songs sys)
    sys.sim.data_feed.reverse r
  intro hmem
  exact this h (pool_id_mem_considered sys hmem)

theorem gather_loop_nodup (oracle : Oracle) (count : Nat) :
    ∀ (sys : System), (sys.pool.map Recommendation.id).Nodup →
      (((gather_loop oracle sys count).pool.map Recommendation.id)).Nodup := by
  induction count with
  | zero => intro sys h; exact h
  | succ count ih =>
    intro sys h
    unfold gather_loop
    cases hres : (assure_unique oracle sys).1 with
    | none =>
      simp only [hres]
      exact ih _ h
    | some r =>
      simp only [hres]
      refine ih _ ?_
      show ((sys.pool ++ [r]).map Recommendation.id).Nodup
      rw [List.map_append, List.map_singleton]
      exact nodup_concat h (assure_unique_fresh hres)

theorem get_recommendations_nodup (oracle : Oracle) (sys : System)
    (artist track : String) (count : Nat)
    (h : (sys.pool.map Recommendation.id).Nodup) :
    (((get_recommendations oracle sys artist track count).pool.map
      Recommendation.id)).Nodup := by
  unfold get_recommendations
  split
  · exact gather_loop_nodup oracle count _ h
  · exact gather_loop_nodup oracle count _ h

theorem error_bind {ε α β : Type} (e : ε) (f : α → Except ε β) :
    (Except.error e >>= f) = Except.error e := rfl

theorem pc_register_new_pool {sys : System} {reco : Option Recommendation}
    {score : Option ℚ} {sys' : System}
    (h : pc_register_new sys reco score = .ok sys') : sys'.pool = sys.pool := by
  unfold pc_register_new at h
  cases reco with
  | none => simp at h
  | some r =>
    simp only [Except.ok.injEq] at h
    rw [← h]

theorem pc_register_strategy_pool {sys : System} {reco : Option Recommendation}
    {score : Option ℚ} {sys' : System}
    (h : pc_register_strategy sys reco score = .ok sys') : sys'.pool = sys.pool := by
  unfold pc_register_strategy at h
  cases hf : sys.affirmations.find?
      (fun a => a.knowledge_source == KSId.playcount && a.retractable) with
  | none =>
    simp only [hf] at h
    exact pc_register_new_pool h
  | some a =>
    simp only [hf] at h
    cases harec : a.recommendation with
    | none => cases reco <;> simp [harec] at h
    | some ar =>
      cases reco with
      | none => simp [harec] at h
      | some r =>
        simp only [harec] at h
        by_cases hid : ar.id = r.id
        · rw [if_pos hid] at h
          simp only [Except.ok.injEq] at h
          rw [← h]
        · rw [if_neg hid] at h
          have h2 := pc_register_new_pool h
          exact h2

theorem pc_register_bind_pool {sysA : System} {reco : Option Recommendation}
    {score : Option ℚ} {best : Bucket} {res : Option Bucket × System}
    (h : (pc_register_strategy sysA reco score >>=
      fun s => Except.ok (some best, s)) = .ok res) :
    res.2.pool = sysA.pool := by
  cases hreg : pc_register_strategy sysA reco score with
  | error e => rw [hreg] at h; simp [error_bind] at h
  | ok s2 =>
    rw [hreg] at h
    simp only [ok_bind, Except.ok.injEq] at h
    rw [← h]
    exact pc_register_strategy_pool hreg

theorem pc_choose_pool {sys : System} {res : Option Bucket × System}
    (h : pc_choose sys = .ok res) : res.2.pool = sys.pool := by
  unfold pc_choose at h
  by_cases hp : sys.pool.length = 0
  · rw [if_pos hp] at h
    simp only [Except.ok.injEq] at h
    rw [← h]
  · rw [if_neg hp] at h
    cases hsolv : sys.solving with
    | none => simp [hsolv, error_bind] at h
    | some sv =>
      simp only [hsolv, pure_bind] at h
      cases hsrec : sv.recommendation with
      | none => simp [hsrec, error_bind] at h
      | some sr =>
        simp only [hsrec, pure_bind] at h
        by_cases hz : sr.playcount = 0
        · rw [if_pos hz] at h
          simp at h
        · rw [if_neg hz] at h
          cases hfb : priority_fallback (computePosition sr.playcount sys.pool)
              (match sys.pc.try_this with
               | some s => s
               | none => "closest playcount") with
          | error e => rw [hfb] at h; simp [error_bind] at h
          | ok fb =>
            rw [hfb] at h
            simp only [ok_bind] at h
            have h2 := pc_register_bind_pool h
            exact h2

theorem tag_register_new_pool {sys : System} {score : ℚ}
    {reco : Option Recommendation} {sys' : System}
    (h : tag_register_new sys score reco = .ok sys') : sys'.pool = sys.pool := by
  unfold tag_register_new at h
  cases reco with
  | none => simp at h
  | some r =>
    simp only [Except.ok.injEq] at h
    rw [← h]

theorem tag_register_assumption_pool {sys : System} {score : ℚ}
    {reco : Option Recommendation} {sys' : System}
    (h : tag_register_assumption sys score reco = .ok sys') :
    sys'.pool = sys.pool := by
  unfold tag_register_assumption at h
  cases hf : sys.affirmations.find?
      (fun a => a.knowledge_source == KSId.tagsrc && a.retractable) with
  | none =>
    simp only [hf] at h
    exact tag_register_new_pool h
  | some a =>
    simp only [hf] at h
    cases harec : a.recommendation with
    | none => cases reco <;> simp [harec] at h
    | some ar =>
      cases reco with
      | none => simp [harec] at h
      | some r =>
        simp only [harec] at h
        by_cases hid : ar.id = r.id
        · rw [if_pos hid] at h
          simp only [Except.ok.injEq] at h
          rw [← h]
        · rw [if_neg hid] at h
          have h2 := tag_register_new_pool h
          exact h2

theorem tag_register_bind_pool {sysA : System} {score : ℚ}
    {reco : Option Recommendation} {res : ℚ × Option Recommendation × System}
    (h : (tag_register_assumption sysA score reco >>=
      fun s => Except.ok (score, reco, s)) = .ok res) :
    res.2.2.pool = sysA.pool := by
  cases hreg : tag_register_assumption sysA score reco with
  | error e => rw [hreg] at h; simp [error_bind] at h
  | ok s2 =>
    rw [hreg] at h
    simp only [ok_bind, Except.ok.injEq] at h
    rw [← h]
    exact tag_register_assumption_pool hreg

theorem tag_choose_pool {oracle : Oracle} {sys : System}
    {res : ℚ × Option Recommendation × System}
    (h : tag_choose oracle sys = .ok res) : res.2.2.pool = sys.pool := by
  unfold tag_choose at h
  cases hsolv : sys.solving with
  | none => simp [hsolv, error_bind] at h
  | some sv =>
    simp only [hsolv, pure_bind] at h
    cases hsrec : sv.recommendation with
    | none => simp [hsrec, error_bind] at h
    | some sr =>
      simp only [hsrec, pure_bind] at h
      by_cases hlen : (song_tags oracle sr).length = 0
      · rw [if_pos hlen] at h
        simp at h
      · rw [if_neg hlen] at h
        have h2 := tag_register_bind_pool h
        exact h2

theorem tag_be_notified_pool {sys sys' : System}
    (h : tag_be_notified sys = .ok sys') : sys'.pool = sys.pool := by
  unfold tag_be_notified at h
  cases hf : sys.affirmations.find? (fun a => a.knowledge_source == KSId.tagsrc) with
  | none =>
    simp only [hf, Except.ok.injEq] at h
    rw [← h]
  | some a =>
    simp only [hf] at h
    by_cases hr : a.retractable = true
    · rw [if_pos hr] at h
      simp only [Except.ok.injEq] at h
      rw [← h]
    · rw [if_neg hr] at h
      simp at h

theorem pc_be_notified_pool {sys : System} {rec : Recommendation}
    {response : String} {sys' : System}
    (h : pc_be_notified sys rec response = .ok sys') : sys'.pool = sys.pool := by
  unfold pc_be_notified at h
  by_cases hyes : response = "yes"
  · rw [if_pos hyes] at h
    simp only [Except.ok.injEq] at h
    rw [← h]
  · rw [if_neg hyes] at h
    cases hpa : sys.affirmations.find? (fun a => a.knowledge_source == KSId.playcount) with
    | none =>
      simp only [hpa, pure_bind] at h
      repeat' split at h
      all_goals simp only [Except.ok.injEq] at h
      all_goals rw [← h]
    | some a =>
      simp only [hpa] at h
      by_cases hret : a.retractable = true
      · rw [if_pos hret] at h
        simp only [pure_bind] at h
        cases harec : a.recommendation with
        | none => simp [harec, error_bind] at h
        | some ar =>
          simp only [harec, pure_bind] at h
          cases hsolv : sys.solving with
          | none => simp [hsolv, error_bind] at h
          | some sv =>
            simp only [hsolv, pure_bind] at h
            cases hsrec : sv.recommendation with
            | none => simp [hsrec, error_bind] at h
            | some sr =>
              simp only [hsrec, pure_bind] at h
              repeat' split at h
              all_goals simp only [Except.ok.injEq] at h
              all_goals rw [← h]
      · rw [if_neg hret] at h
        simp [error_bind] at h

theorem ks_be_notified_nodup {oracle : Oracle} {selfKs : KSId} {sys : System}
    {rec : Recommendation} {response : String} {sys' : System}
    (h : ks_be_notified oracle selfKs sys rec response = .ok sys')
    (hn : (sys.pool.map Recommendation.id).Nodup) :
    (sys'.pool.map Recommendation.id).Nodup := by
  unfold ks_be_notified at h
  by_cases hyes : response = "yes"
  · rw [if_pos hyes] at h
    simp only [Except.ok.injEq] at h
    rw [← h]
    exact hn
  · rw [if_neg hyes] at h
    by_cases hks : rec.knowledge_source = selfKs
    · rw [if_pos hks] at h
      cases hsolv : sys.solving with
      | none => simp [hsolv] at h
      | some sv =>
        simp only [hsolv] at h
        cases hsrec : sv.recommendation with
        | none => simp [hsrec] at h
        | some sr =>
          simp only [hsrec, Except.ok.injEq] at h
          rw [← h]
          exact get_recommendations_nodup oracle _ _ _ _ hn
    · rw [if_neg hks] at h
      simp only [Except.ok.injEq] at h
      rw [← h]
      exact hn

theorem stepNotifyOne_nodup {oracle : Oracle} {sys : System}
    {rec : Recommendation} {response : String} {ks : KSId} {sys' : System}
    (h : stepNotifyOne oracle sys rec response ks = .ok sys')
    (hn : (sys.pool.map Recommendation.id).Nodup) :
    (sys'.pool.map Recommendation.id).Nodup := by
  cases ks with
  | info =>
    simp only [stepNotifyOne, Except.ok.injEq] at h
    rw [← h]; exact hn
  | similar => exact ks_be_notified_nodup h hn
  | playcount =>
    have h2 : pc_be_notified sys rec response = .ok sys' := h
    rw [pc_be_notified_pool h2]; exact hn
  | tagsrc =>
    have h2 : tag_be_notified sys = .ok sys' := h
    rw [tag_be_notified_pool h2]; exact hn

theorem notify_go_nodup (oracle : Oracle) (rec : Recommendation)
    (response : String) :
    ∀ (ds : List KSId) (sys sys' : System),
      notify_go oracle rec response ds sys = .ok sys' →
      (sys.pool.map Recommendation.id).Nodup →
      (sys'.pool.map Recommendation.id).Nodup := by
  intro ds
  induction ds with
  | nil =>
    intro sys sys' h hn
    simp only [notify_go, Except.ok.injEq] at h
    rw [← h]; exact hn
  | cons ks rest ih =>
    intro sys sys' h hn
    unfold notify_go at h
    cases hstep : stepNotifyOne oracle sys rec response ks with
    | error e => rw [hstep] at h; simp at h
    | ok sys1 =>
      rw [hstep] at h
      exact ih sys1 sys' h (stepNotifyOne_nodup hstep hn)

theorem notify_nodup {oracle : Oracle} {sys : System} {rec : Recommendation}
    {response : String} {sys' : System}
    (h : notify oracle sys rec response = .ok sys')
    (hn : (sys.pool.map Recommendation.id).Nodup) :
    (sys'.pool.map Recommendation.id).Nodup :=
  notify_go_nodup oracle rec response _ sys sys' h hn

theorem empty_pool_nodup {pool : List Recommendation}
    (hn : (pool.map Recommendation.id).Nodup) :
    ((empty_pool pool).map Recommendation.id).Nodup :=
  hn.sublist (List.Sublist.map Recommendation.id (empty_pool_sublist pool))

theorem like_nodup {oracle : Oracle} {sys : System} {rec : Recommendation}
    {sys' : System} (h : like oracle sys rec = .ok sys')
    (hn : (sys.pool.map Recommendation.id).Nodup) :
    (sys'.pool.map Recommendation.id).Nodup := by
  unfold like at h
  cases hnot : notify oracle sys rec "yes" with
  | error e => rw [hnot] at h; simp [error_bind] at h
  | ok sys1 =>
    rw [hnot] at h
    simp only [ok_bind, Except.ok.injEq] at h
    rw [← h]
    exact get_recommendations_nodup oracle _ _ _ _
      (empty_pool_nodup (notify_nodup hnot hn))

theorem removeFirst_nodup {p : Recommendation → Bool}
    {pool : List Recommendation}
    (hn : (pool.map Recommendation.id).Nodup) :
    ((removeFirst p pool).map Recommendation.id).Nodup :=
  hn.sublist (List.Sublist.map Recommendation.id (removeFirst_sublist p pool))

theorem dislike_nodup {oracle : Oracle} {sys : System} {rec : Recommendation}
    {sys' : System} (h : dislike oracle sys rec = .ok sys')
    (hn : (sys.pool.map Recommendation.id).Nodup) :
    (sys'.pool.map Recommendation.id).Nodup := by
  unfold dislike at h
  split at h
  · exact notify_nodup h (removeFirst_nodup hn)
  · simp at h

theorem get_info_pool {oracle : Oracle} {sys : System} {artist track : String}
    {r : Recommendation} {sys' : System}
    (h : get_info oracle sys artist track = .ok (r, sys')) :
    sys'.pool = sys.pool := by
  unfold get_info at h
  dsimp only at h
  by_cases hth : sys.info.thinking_about ≠ some (artist ++ " - " ++ track)
  · rw [if_pos hth] at h
    simp only [Except.ok.injEq, Prod.mk.injEq] at h
    rw [← h.2]
  · rw [if_neg hth] at h
    cases hcc : sys.info.cached with
    | none => simp [hcc] at h
    | some infoRec =>
      simp only [hcc, Except.ok.injEq, Prod.mk.injEq] at h
      rw [← h.2]

theorem recommend_nodup {oracle : Oracle} {sys : System}
    {res : Option Recommendation × System}
    (h : recommend oracle sys = .ok res)
    (hn : (sys.pool.map Recommendation.id).Nodup) :
    (res.2.pool.map Recommendation.id).Nodup := by
  unfold recommend at h
  by_cases hp : sys.pool.length = 0
  · rw [if_pos hp] at h
    simp only [Except.ok.injEq] at h
    rw [← h]
    exact hn
  · rw [if_neg hp] at h
    cases hpc : pc_choose sys with
    | error e => rw [hpc] at h; simp [error_bind] at h
    | ok pcRes =>
      rw [hpc] at h
      simp only [ok_bind] at h
      cases htc : tag_choose oracle pcRes.2 with
      | error e => rw [htc] at h; simp [error_bind] at h
      | ok tagRes =>
        rw [htc] at h
        simp only [ok_bind] at h
        have hpool : tagRes.2.2.pool = sys.pool := by
          rw [tag_choose_pool htc, pc_choose_pool hpc]
        cases hfst : pcRes.1 with
        | some p =>
          simp only [hfst] at h
          split at h <;>
            (simp only [Except.ok.injEq] at h; rw [← h]; rw [hpool]; exact hn)
        | none =>
          simp only [hfst, Except.ok.injEq] at h
          rw [← h]
          rw [hpool]
          exact hn

theorem step_nodup {oracle : Oracle} {sys sys' : System}
    (hstep : Step oracle sys sys')
    (hn : (sys.pool.map Recommendation.id).Nodup) :
    (sys'.pool.map Recommendation.id).Nodup := by
  cases hstep with
  | get_info artist track r s1 s2 h => rw [get_info_pool h]; exact hn
  | gather artist track count s => exact get_recommendations_nodup oracle _ _ _ _ hn
  | recommend r s1 s2 h => exact recommend_nodup h hn
  | like rec s1 s2 h => exact like_nodup h hn
  | dislike rec s1 s2 h => exact dislike_nodup h hn

theorem reachable_nodup {oracle : Oracle} {sys : System}
    (h : Reachable oracle sys) : (sys.pool.map Recommendation.id).Nodup := by
  induction h with
  | init => simp [initSystem]
  | step _ hs ih => exact step_nodup hs ih

/-- **C3.**  (i) In every state the controller can reach, the pool's
`(artist, track)` identities are pairwise distinct.  (ii) A candidate
admitted through `assure_unique` never carries an identity already pooled,
and `assure_unique` itself leaves the pool untouched.  (iii) When every feed
entry's identity is already pooled, `assure_unique` rejects them all —
returning `None`, with the pool unchanged. -/
theorem C3_pool_identities_pairwise_distinct :
    (∀ (oracle : Oracle) (sys : System), Reachable oracle sys →
      (sys.pool.map Recommendation.id).Nodup) ∧
    (∀ (oracle : Oracle) (sys : System) (r : Recommendation),
      (assure_unique oracle sys).1 = some r →
      r.id ∉ sys.pool.map Recommendation.id ∧
      (assure_unique oracle sys).2.pool = sys.pool) ∧
    (∀ (oracle : Oracle) (sys : System),
      (∀ song ∈ sys.sim.data_feed,
        (oracle.getTrackInfo song.artistName song.name).id ∈
          sys.pool.map Recommendation.id) →
      (assure_unique oracle sys).1 = none ∧
      (assure_unique oracle sys).2.pool = sys.pool) := by
  refine ⟨fun oracle sys h => reachable_nodup h, ?_, ?_⟩
  · intro oracle sys r h
    exact ⟨assure_unique_fresh h, assure_unique_pool oracle sys⟩
  · intro oracle sys hall
    refine ⟨?_, assure_unique_pool oracle sys⟩
    exact assure_unique_pop_all_dup oracle (considered_songs sys)
      sys.sim.data_feed.reverse
      (fun song hs => pool_id_mem_considered sys
        (hall song (List.mem_reverse.mp hs)))

/-- A one-entry feed whose track is not yet pooled. -/
def sysW : System :=
  { initSystem with
    sim := { thinking_about := some "a",
             data_feed := [⟨40, "a", "t", 0, none, KSId.similar⟩] } }

/-- A one-entry feed whose track identity is already pooled. -/
def sysW2 : System :=
  { initSystem with
    pool := [⟨41, "a", "t", 0, none, KSId.similar⟩],
    sim := { thinking_about := some "a",
             data_feed := [⟨40, "a", "t", 0, none, KSId.similar⟩] } }

/-- Witness for C3: the initial state, one fresh admission, and one
duplicate rejection. -/
theorem C3_pool_identities_witness :
    (initSystem.pool.map Recommendation.id).Nodup ∧
    ((oracle0.getTrackInfo "a" "t").id ∉ sysW.pool.map Recommendation.id ∧
      (assure_unique oracle0 sysW).2.pool = sysW.pool) ∧
    ((assure_unique oracle0 sysW2).1 = none ∧
      (assure_unique oracle0 sysW2).2.pool = sysW2.pool) :=
  ⟨C3_pool_identities_pairwise_distinct.1 oracle0 initSystem Reachable.init,
   C3_pool_identities_pairwise_distinct.2.1 oracle0 sysW
     (oracle0.getTrackInfo "a" "t") rfl,
   C3_pool_identities_pairwise_distinct.2.2 oracle0 sysW2 (by decide)⟩

end Blackboard
